import Mathlib

/-!
Verification model of the RDMA userspace connection-manager access layer
(`drivers/infiniband/core/ucma.c`, Linux 5.9).

Sessions (`struct ucma_file`), Contexts (`struct ucma_context`), Multicast
Groups (`struct ucma_multicast`) and Events (`struct ucma_event`) are embedded
shallowly.  Kernel/user copy outcomes, allocation outcomes and engine
(`rdma_*`) call results are nondeterministic environment inputs, passed to each
modelled command as explicit parameters.  Locks are elided: every modelled
command is a single atomic step, which is exactly the serialization the
`file->mut` / per-context mutexes provide.  Wire marshalling of response
payloads (conn/ud parameter copying) is out of scope per the specification;
an Event carries the fields the driver's control flow inspects.

Id allocation (`xa_alloc`) is modelled as handing out a fresh id (one more
than the largest live id); only freshness matters to the driver's logic.
`rdma_destroy_id` calls are recorded in `destroyed_cm_ids`, scheduled
close work in `close_works`, so teardown effects stay observable.
-/

namespace Ucma

/-- errno values used by ucma.c (the driver returns them negated). -/
def ENOENT : Int := 2
/-- errno EIO (5), returned by `ucma_get_ctx` for a Closing context. -/
def EIO_code : Int := 5
def ENXIO_code : Int := 6
def EAGAIN : Int := 11
def ENOMEM : Int := 12
def EFAULT : Int := 14
def EINVAL : Int := 22
def ENOSPC : Int := 28
def ENOSYS : Int := 38
def EACCES : Int := 13
def ERESTARTSYS : Int := 512

/-- `enum rdma_cm_event_type` values the driver's control flow branches on. -/
inductive EventKind where
  | connectRequest
  | deviceRemoval
  | multicastJoin
  | multicastError
  | other (n : Nat)
deriving DecidableEq

/-- `struct rdma_cm_event` as seen by `ucma_event_handler`: the kind, the
status, and (for multicast events) the `param.ud.private_data` pointer that
carries the `ucma_multicast` reference. -/
structure EngineEvent where
  event : EventKind
  status : Int
  mc_ref : Option Nat
deriving DecidableEq

/-- `struct ucma_event`: target context, optional target group, the engine
object (`cm_id`) it references, and the response fields the driver writes
(`resp.event`, `resp.status`, `resp.uid`, `resp.id`). -/
structure Event where
  ctx : Nat
  mc : Option Nat
  cm_id : Nat
  resp_event : EventKind
  resp_status : Int
  resp_uid : Nat
  resp_id : Nat
deriving DecidableEq

/-- `struct ucma_context`.  `ref` is the refcount, `in_table` records
presence in the `ctx_table` xarray (`xa_alloc` sets it, `xa_erase` would
clear it; `kfree` removes the object from the heap list entirely). -/
structure Context where
  id : Nat
  ref : Nat
  events_reported : Nat
  backlog : Nat
  file : Nat
  cm_id : Option Nat
  uid : Nat
  closing : Bool
  destroying : Bool
  in_table : Bool
  mc_list : List Nat
deriving DecidableEq

/-- `struct ucma_multicast`.  `published` distinguishes the xarray entry
states: `xa_alloc(.., NULL, ..)` reserves the id with a NULL entry (so
`xa_load` misses it) and `xa_store` later publishes the pointer. -/
structure Multicast where
  ctx : Nat
  id : Nat
  events_reported : Nat
  uid : Nat
  join_state : Nat
  addr : Nat
  published : Bool
deriving DecidableEq

/-- Whole-driver state: the heap of live contexts and groups, the per-session
event queue (`file->event_list`) and context list (`file->ctx_list`), plus
logs of scheduled close work and destroyed engine objects. -/
structure UState where
  ctxs : List Context
  mcs : List Multicast
  event_list : Nat → List Event
  ctx_list : Nat → List Nat
  close_works : List Nat
  destroyed_cm_ids : List Nat

/-- Find a live context object by id (pointer dereference analogue). -/
def findCtx (s : UState) (id : Nat) : Option Context :=
  s.ctxs.find? (fun c => c.id == id)

/-- `xa_load(&ctx_table, id)`: only contexts present in the table. -/
def xaLoadCtx (s : UState) (id : Nat) : Option Context :=
  match findCtx s id with
  | none => none
  | some c => if c.in_table then some c else none

/-- Find a live multicast object by id. -/
def findMc (s : UState) (id : Nat) : Option Multicast :=
  s.mcs.find? (fun m => m.id == id)

/-- `xa_load(&multicast_table, id)`: reserved-but-NULL entries are missed. -/
def xaLoadMc (s : UState) (id : Nat) : Option Multicast :=
  match findMc s id with
  | none => none
  | some m => if m.published then some m else none

/-- Mutate the context with the given id in place. -/
def updateCtx (s : UState) (cid : Nat) (f : Context → Context) : UState :=
  { s with ctxs := s.ctxs.map (fun c => if c.id = cid then f c else c) }

/-- Mutate the multicast group with the given id in place. -/
def updateMc (s : UState) (mid : Nat) (f : Multicast → Multicast) : UState :=
  { s with mcs := s.mcs.map (fun m => if m.id = mid then f m else m) }

/-- `list_add_tail(&uevent->list, &file->event_list)`. -/
def enqueueEvent (s : UState) (f : Nat) (e : Event) : UState :=
  { s with event_list := fun g => if g = f then s.event_list g ++ [e] else s.event_list g }

/-- Fresh context id: one past the largest live context id. -/
def freshCtxId (s : UState) : Nat :=
  (s.ctxs.map Context.id).foldr Nat.max 0 + 1

/-- Fresh multicast id: one past the largest live group id. -/
def freshMcId (s : UState) : Nat :=
  (s.mcs.map Multicast.id).foldr Nat.max 0 + 1

/-- `ucma_put_ctx`: drop one reference (the completion signal on reaching
zero is the blocked destroyer's business and carries no further state). -/
def ucma_put_ctx (s : UState) (cid : Nat) : UState :=
  updateCtx s cid (fun c => { c with ref := c.ref - 1 })

/-- `_ucma_find_context`: `xa_load`, then ownership/attachment check. -/
def _ucma_find_context (s : UState) (id : Nat) (file : Nat) : Except Int Context :=
  match xaLoadCtx s id with
  | none => Except.error (-ENOENT)
  | some ctx =>
    if ctx.file ≠ file ∨ ctx.cm_id = none then Except.error (-EINVAL)
    else Except.ok ctx

/-- `ucma_get_ctx`: under the table lock, find, refuse Closing contexts,
otherwise take a reference.  Returns the context id as the "pointer". -/
def ucma_get_ctx (s : UState) (file : Nat) (id : Nat) : UState × Except Int Nat :=
  match _ucma_find_context s id file with
  | Except.error e => (s, Except.error e)
  | Except.ok ctx =>
    if ctx.closing then (s, Except.error (-EIO_code))
    else (updateCtx s id (fun c => { c with ref := c.ref + 1 }), Except.ok id)

/-- `ucma_get_ctx_dev`: as `ucma_get_ctx` but requires `ctx->cm_id->device`.
`dev_bound` tells which engine objects have a bound device. -/
def ucma_get_ctx_dev (dev_bound : Nat → Bool) (s : UState) (file : Nat) (id : Nat) :
    UState × Except Int Nat :=
  match ucma_get_ctx s file id with
  | (s1, Except.error e) => (s1, Except.error e)
  | (s1, Except.ok cid) =>
    match findCtx s1 cid with
    | none => (s1, Except.ok cid)
    | some c =>
      match c.cm_id with
      | none => (s1, Except.ok cid)
      | some cm =>
        if dev_bound cm = false then (ucma_put_ctx s1 cid, Except.error (-EINVAL))
        else (s1, Except.ok cid)

/-- `ucma_set_event_context`: build the `ucma_event` for a callback; for
multicast events, target and response identity come from the group. -/
def ucma_set_event_context (s : UState) (ctx : Context) (ev : EngineEvent) (cm_id : Nat) :
    Event :=
  match ev.event with
  | EventKind.multicastJoin =>
    let mcId := ev.mc_ref.getD 0
    { ctx := ctx.id, mc := some mcId, cm_id := cm_id,
      resp_event := ev.event, resp_status := ev.status,
      resp_uid := ((findMc s mcId).map Multicast.uid).getD 0, resp_id := mcId }
  | EventKind.multicastError =>
    let mcId := ev.mc_ref.getD 0
    { ctx := ctx.id, mc := some mcId, cm_id := cm_id,
      resp_event := ev.event, resp_status := ev.status,
      resp_uid := ((findMc s mcId).map Multicast.uid).getD 0, resp_id := mcId }
  | _ =>
    { ctx := ctx.id, mc := none, cm_id := cm_id,
      resp_event := ev.event, resp_status := ev.status,
      resp_uid := ctx.uid, resp_id := ctx.id }

/-- The in-line loop of `ucma_removal_event_handler`: remove the first
queued connect-request event referencing this engine object and schedule
release of that object. -/
def removeFirstConnReq (s : UState) (f : Nat) (cm_id : Nat) : UState :=
  let q := s.event_list f
  match q.findIdx? (fun e => e.cm_id == cm_id && e.resp_event == EventKind.connectRequest) with
  | none => s
  | some i =>
    { s with event_list := fun g => if g = f then q.eraseIdx i else s.event_list g,
             destroyed_cm_ids := s.destroyed_cm_ids ++ [cm_id] }

/-- `ucma_removal_event_handler`: called for a device-removal event;
`ctx_of_cm` is the `cm_id->context` back pointer. -/
def ucma_removal_event_handler (s : UState) (cm_id : Nat) (ctx_of_cm : Nat) : UState :=
  match findCtx s ctx_of_cm with
  | none => s
  | some ctx =>
    if ctx.destroying then s
    else if ctx.cm_id = some cm_id then
      let s1 := updateCtx s ctx_of_cm (fun c => { c with closing := true })
      { s1 with close_works := s1.close_works ++ [ctx_of_cm] }
    else
      removeFirstConnReq s ctx.file cm_id

/-- `ucma_event_handler`: the engine callback.  `alloc_ok` is the `kzalloc`
outcome; `ctx_of_cm` is `cm_id->context`.  Result: new state, the int
returned to the engine, and whether `wake_up_interruptible` was called.
In the connect-request branch the device-removal tail check is statically
false, so the enqueue path below it is written directly. -/
def ucma_event_handler (s : UState) (alloc_ok : Bool) (cm_id : Nat) (ctx_of_cm : Nat)
    (ev : EngineEvent) : UState × Int × Bool :=
  if alloc_ok = false then
    (s, if ev.event = EventKind.connectRequest then 1 else 0, false)
  else
    match findCtx s ctx_of_cm with
    | none => (s, 0, false)
    | some ctx =>
      let uevent := ucma_set_event_context s ctx ev cm_id
      if ev.event = EventKind.connectRequest then
        if ctx.backlog = 0 then (s, -ENOMEM, false)
        else
          let s1 := updateCtx s ctx_of_cm (fun c => { c with backlog := c.backlog - 1 })
          (enqueueEvent s1 ctx.file uevent, 0, true)
      else if ctx.uid = 0 ∨ ctx.cm_id ≠ some cm_id then
        let s1 := if ev.event = EventKind.deviceRemoval
                  then ucma_removal_event_handler s cm_id ctx_of_cm else s
        (s1, 0, false)
      else
        let s1 := enqueueEvent s ctx.file uevent
        let s2 := if ev.event = EventKind.deviceRemoval
                  then ucma_removal_event_handler s1 cm_id ctx_of_cm else s1
        (s2, 0, true)

/-- `ucma_alloc_ctx`: zeroed context, refcount 1, fresh table id, appended
to the session's context list. -/
def ucma_alloc_ctx (s : UState) (file : Nat) : UState × Nat :=
  let cid := freshCtxId s
  let c : Context :=
    { id := cid, ref := 1, events_reported := 0, backlog := 0, file := file,
      cm_id := none, uid := 0, closing := false, destroying := false,
      in_table := true, mc_list := [] }
  ({ s with ctxs := s.ctxs ++ [c],
            ctx_list := fun g => if g = file then s.ctx_list g ++ [cid] else s.ctx_list g },
   cid)

/-- `ucma_alloc_multicast`: fresh reserved (unpublished) table id, appended
to the parent context's group list. -/
def ucma_alloc_multicast (s : UState) (ctx : Context) : UState × Nat :=
  let mid := freshMcId s
  let mc : Multicast :=
    { ctx := ctx.id, id := mid, events_reported := 0, uid := 0,
      join_state := 0, addr := 0, published := false }
  let s1 := { s with mcs := s.mcs ++ [mc] }
  (updateCtx s1 ctx.id (fun c => { c with mc_list := c.mc_list ++ [mid] }), mid)

/-- The tail of `ucma_get_event` after a successful `copy_to_user`:
`list_del`, bump `events_reported` on the event's context and, if present,
on its group, and free the event. -/
def finishGetEvent (s : UState) (file : Nat) (uev : Event) (rest : List Event) :
    UState × Int × Option Event :=
  let s1 := { s with event_list := fun g => if g = file then rest else s.event_list g }
  let s2 := updateCtx s1 uev.ctx (fun c => { c with events_reported := c.events_reported + 1 })
  let s3 := match uev.mc with
    | some m => updateMc s2 m (fun mc => { mc with events_reported := mc.events_reported + 1 })
    | none => s2
  (s3, 0, some uev)

/-- `ucma_get_event`.  The third component is the response delivered to the
client (`none` when no copy reached the client).  A connect-request head
spawns a fresh context, returns the backlog slot to the parent listener,
adopts the engine object and substitutes the new id into the queued event's
response in place — all before `copy_to_user`, so a failed copy leaves those
effects behind with the (mutated) event still queued. -/
def ucma_get_event (s : UState) (file : Nat)
    (out_len_ok copy_from_ok nonblock alloc_ok copy_to_ok : Bool) :
    UState × Int × Option Event :=
  if out_len_ok = false then (s, -ENOSPC, none)
  else if copy_from_ok = false then (s, -EFAULT, none)
  else
    match s.event_list file with
    | [] => (s, if nonblock then -EAGAIN else -ERESTARTSYS, none)
    | uev :: rest =>
      if uev.resp_event = EventKind.connectRequest then
        if alloc_ok = false then (s, -ENOMEM, none)
        else
          let p := ucma_alloc_ctx s file
          let s1 := p.1
          let cid := p.2
          let s2 := updateCtx s1 uev.ctx (fun c => { c with backlog := c.backlog + 1 })
          let s3 := updateCtx s2 cid (fun c => { c with cm_id := some uev.cm_id })
          let uev1 : Event := { uev with resp_id := cid }
          let s4 := { s3 with event_list := fun g => if g = file then uev1 :: rest else s3.event_list g }
          if copy_to_ok = false then (s4, -EFAULT, none)
          else finishGetEvent s4 file uev1 rest
      else
        if copy_to_ok = false then (s, -EFAULT, none)
        else finishGetEvent s file uev rest

def RDMA_PS_IPOIB : Nat := 0x0002
def RDMA_PS_TCP : Nat := 0x0106
def RDMA_PS_UDP : Nat := 0x0111
def RDMA_PS_IB : Nat := 0x013F
def IB_QPT_RC : Nat := 2
def IB_QPT_UD : Nat := 4

/-- `ucma_get_qp_type`: map the port space to a QP type. -/
def ucma_get_qp_type (ps : Nat) (qp_type : Nat) : Option Nat :=
  if ps = RDMA_PS_TCP then some IB_QPT_RC
  else if ps = RDMA_PS_UDP ∨ ps = RDMA_PS_IPOIB then some IB_QPT_UD
  else if ps = RDMA_PS_IB then some qp_type
  else none

/-- The unwind shared by `ucma_create_id`'s error paths: `xa_erase`,
`list_del` from the owning session's context list, `kfree`. -/
def ctxUnwind (s : UState) (cid : Nat) : UState :=
  match findCtx s cid with
  | none => s
  | some c =>
    { s with ctxs := s.ctxs.filter (fun x => x.id ≠ cid),
             ctx_list := fun g => if g = c.file then (s.ctx_list g).filter (fun x => x ≠ cid)
                                  else s.ctx_list g }

/-- `ucma_create_id`.  `engine_id` is the `__rdma_create_id` outcome; on the
copy-failure path `rdma_destroy_id` is recorded before the unwind. -/
def ucma_create_id (s : UState) (file : Nat) (out_len_ok copy_from_ok : Bool)
    (ps qp_type_req uid : Nat) (alloc_ok : Bool) (engine_id : Except Int Nat)
    (copy_to_ok : Bool) : UState × Int :=
  if out_len_ok = false then (s, -ENOSPC)
  else if copy_from_ok = false then (s, -EFAULT)
  else
    match ucma_get_qp_type ps qp_type_req with
    | none => (s, -EINVAL)
    | some _ =>
      if alloc_ok = false then (s, -ENOMEM)
      else
        let p := ucma_alloc_ctx s file
        let s1 := updateCtx p.1 p.2 (fun c => { c with uid := uid })
        match engine_id with
        | Except.error e => (ctxUnwind s1 p.2, e)
        | Except.ok cm =>
          if copy_to_ok = false then
            (ctxUnwind { s1 with destroyed_cm_ids := s1.destroyed_cm_ids ++ [cm] } p.2, -EFAULT)
          else
            (updateCtx s1 p.2 (fun c => { c with cm_id := some cm }), 0)

/-- `ucma_cleanup_mc_events`: drop every queued event whose target is this
group from the parent context's session queue. -/
def ucma_cleanup_mc_events (s : UState) (mc : Multicast) : UState :=
  match findCtx s mc.ctx with
  | none => s
  | some c =>
    { s with event_list := fun g =>
        if g = c.file then (s.event_list g).filter (fun e => e.mc ≠ some mc.id)
        else s.event_list g }

/-- The group unwind shared by `ucma_process_join`'s error paths:
`xa_erase`, `list_del` from the parent's group list, `kfree`. -/
def mcUnwind (s : UState) (cid mid : Nat) : UState :=
  let s1 := { s with mcs := s.mcs.filter (fun m => m.id ≠ mid) }
  updateCtx s1 cid (fun c => { c with mc_list := c.mc_list.filter (fun x => x ≠ mid) })

def RDMA_MC_JOIN_FLAG_FULLMEMBER : Nat := 0
def RDMA_MC_JOIN_FLAG_SENDONLY_FULLMEMBER : Nat := 1
/-- `BIT(FULLMEMBER_JOIN)` with `FULLMEMBER_JOIN = 0`. -/
def BIT_FULLMEMBER_JOIN : Nat := 1
/-- `BIT(SENDONLY_FULLMEMBER_JOIN)` with `SENDONLY_FULLMEMBER_JOIN = 3`. -/
def BIT_SENDONLY_FULLMEMBER_JOIN : Nat := 8

/-- `ucma_process_join`.  `join_ret` is the `rdma_join_multicast` outcome;
the group is published (`xa_store`) only after a successful copy to the
client, and a copy failure leaves the engine group, drops the group's queued
events, erases and frees it. -/
def ucma_process_join (dev_bound : Nat → Bool) (s : UState) (file : Nat)
    (out_len_ok addr_size_ok : Bool) (join_flags uid id addr : Nat)
    (alloc_ok : Bool) (join_ret : Int) (copy_to_ok : Bool) : UState × Int :=
  if out_len_ok = false then (s, -ENOSPC)
  else if addr_size_ok = false then (s, -EINVAL)
  else
    match (if join_flags = RDMA_MC_JOIN_FLAG_FULLMEMBER then some BIT_FULLMEMBER_JOIN
           else if join_flags = RDMA_MC_JOIN_FLAG_SENDONLY_FULLMEMBER then
             some BIT_SENDONLY_FULLMEMBER_JOIN
           else none) with
    | none => (s, -EINVAL)
    | some join_state =>
      match ucma_get_ctx_dev dev_bound s file id with
      | (s1, Except.error e) => (s1, e)
      | (s1, Except.ok cid) =>
        match findCtx s1 cid with
        | none => (s1, 0)
        | some ctx =>
          if alloc_ok = false then (ucma_put_ctx s1 cid, -ENOMEM)
          else
            let p := ucma_alloc_multicast s1 ctx
            let s2 := updateMc p.1 p.2
              (fun m => { m with join_state := join_state, uid := uid, addr := addr })
            if join_ret ≠ 0 then
              (ucma_put_ctx (mcUnwind s2 cid p.2) cid, join_ret)
            else if copy_to_ok = false then
              let s3 := match findMc s2 p.2 with
                | some mc => ucma_cleanup_mc_events s2 mc
                | none => s2
              (ucma_put_ctx (mcUnwind s3 cid p.2) cid, -EFAULT)
            else
              (ucma_put_ctx (updateMc s2 p.2 (fun m => { m with published := true })) cid, 0)

/-- `ucma_leave_multicast`.  The third component is the `events_reported`
count delivered to the client (`none` when the copy did not reach it). -/
def ucma_leave_multicast (s : UState) (file : Nat) (out_len_ok copy_from_ok : Bool)
    (id : Nat) (copy_to_ok : Bool) : UState × Int × Option Nat :=
  if out_len_ok = false then (s, -ENOSPC, none)
  else if copy_from_ok = false then (s, -EFAULT, none)
  else
    match xaLoadMc s id with
    | none => (s, -ENOENT, none)
    | some mc =>
      match findCtx s mc.ctx with
      | none => (s, -ENOENT, none)
      | some pc =>
        if pc.file ≠ file then (s, -EINVAL, none)
        else if pc.ref = 0 then (s, -ENXIO_code, none)
        else
          let s1 := updateCtx s mc.ctx (fun c => { c with ref := c.ref + 1 })
          let s2 := updateMc s1 mc.id (fun m => { m with published := false })
          let s3 := ucma_cleanup_mc_events s2 mc
          let s4 := updateCtx s3 mc.ctx
            (fun c => { c with mc_list := c.mc_list.filter (fun x => x ≠ mc.id) })
          let s5 := ucma_put_ctx s4 mc.ctx
          let s6 := { s5 with mcs := s5.mcs.filter (fun m => m.id ≠ mc.id) }
          if copy_to_ok = false then (s6, -EFAULT, none)
          else (s6, 0, some mc.events_reported)

def max_backlog : Nat := 1024

/-- The clamp in `ucma_listen`:
`cmd.backlog > 0 && cmd.backlog < max_backlog ? cmd.backlog : max_backlog`
(`cmd.backlog` is a `__u32`). -/
def listen_backlog (cmd_backlog : Nat) : Nat :=
  if 0 < cmd_backlog ∧ cmd_backlog < max_backlog then cmd_backlog else max_backlog

/-- `ucma_listen`.  `listen_ret` is the `rdma_listen` outcome, passed
through; the third component is the backlog value handed to `rdma_listen`. -/
def ucma_listen (s : UState) (file : Nat) (copy_from_ok : Bool) (id : Nat)
    (cmd_backlog : Nat) (listen_ret : Int) : UState × Int × Option Nat :=
  if copy_from_ok = false then (s, -EFAULT, none)
  else
    match ucma_get_ctx s file id with
    | (s1, Except.error e) => (s1, e, none)
    | (s1, Except.ok cid) =>
      let b := listen_backlog cmd_backlog
      let s2 := updateCtx s1 cid (fun c => { c with backlog := b })
      (ucma_put_ctx s2 cid, listen_ret, some b)

/-- `ucma_move_events`: move every queued event targeting this context from
its current session's queue to the tail of `new_file`'s queue, keeping
relative order (the `list_move_tail` loop). -/
def ucma_move_events (s : UState) (ctxId : Nat) (new_file : Nat) : UState :=
  match findCtx s ctxId with
  | none => s
  | some ctx =>
    let src := s.event_list ctx.file
    let moved := src.filter (fun e => e.ctx == ctxId)
    let kept := src.filter (fun e => e.ctx != ctxId)
    let s1 := { s with event_list := fun g => if g = ctx.file then kept else s.event_list g }
    { s1 with event_list := fun g => if g = new_file then s1.event_list g ++ moved
                                     else s1.event_list g }

/-- `ucma_migrate_id`.  `cur_fd_file` is the session behind the client's
`cmd.fd`; `fd_valid` / `fd_is_ucma` model the `fdget` checks.  The third
component is the `events_reported` count delivered to the client. -/
def ucma_migrate_id (s : UState) (new_file : Nat) (copy_from_ok : Bool)
    (fd_valid fd_is_ucma : Bool) (cur_fd_file : Nat) (id : Nat) (copy_to_ok : Bool) :
    UState × Int × Option Nat :=
  if copy_from_ok = false then (s, -EFAULT, none)
  else if fd_valid = false then (s, -ENOENT, none)
  else if fd_is_ucma = false then (s, -EINVAL, none)
  else
    match ucma_get_ctx s cur_fd_file id with
    | (s1, Except.error e) => (s1, e, none)
    | (s1, Except.ok cid) =>
      match findCtx s1 cid with
      | none => (s1, 0, none)
      | some ctx =>
        if ctx.file = new_file then
          let resp := ctx.events_reported
          if copy_to_ok = false then (ucma_put_ctx s1 cid, -EFAULT, none)
          else (ucma_put_ctx s1 cid, 0, some resp)
        else
          let s2 := { s1 with ctx_list := fun g =>
              if g = ctx.file then (s1.ctx_list g).filter (fun x => x ≠ cid)
              else s1.ctx_list g }
          let s3 := { s2 with ctx_list := fun g =>
              if g = new_file then s2.ctx_list g ++ [cid] else s2.ctx_list g }
          let s4 := ucma_move_events s3 cid new_file
          let s5 := updateCtx s4 cid (fun c => { c with file := new_file })
          let resp := ctx.events_reported
          if copy_to_ok = false then (ucma_put_ctx s5 cid, -EFAULT, none)
          else (ucma_put_ctx s5 cid, 0, some resp)

/-- The `ucma_cmd_table`: which opcodes (0..22) have a non-NULL handler.
Index 13 (`RDMA_USER_CM_CMD_GET_OPTION`) is the single NULL entry. -/
def ucma_cmd_table : List Bool :=
  [true, true, true, true, true, true, true, true, true, true, true, true, true,
   false,
   true, true, true, true, true, true, true, true, true]

/-- `ucma_write`: header validation and dispatch.  `handler_ret` abstracts
the dispatched handler's result; on handler success the byte count `len` is
returned.  The header is 8 bytes (`sizeof(struct rdma_ucm_cmd_hdr)`). -/
def ucma_write (len : Nat) (hdr_cmd hdr_in : Nat) (safe_access copy_ok : Bool)
    (handler_ret : Int) : Int :=
  if safe_access = false then -EACCES
  else if len < 8 then -EINVAL
  else if copy_ok = false then -EFAULT
  else if hdr_cmd ≥ ucma_cmd_table.length then -EINVAL
  else if hdr_in + 8 > len then -EINVAL
  else if ucma_cmd_table.getD hdr_cmd false = false then -ENOSYS
  else if handler_ret = 0 then (len : Int) else handler_ret

/-- Canonical connect-request engine event. -/
def connReqEv : EngineEvent :=
  { event := EventKind.connectRequest, status := 0, mc_ref := none }

/-- A benign non-connect-request engine event. -/
def otherEv : EngineEvent :=
  { event := EventKind.other 0, status := 0, mc_ref := none }

/-- Deliver a burst of incoming connect requests to one listener, one
`ucma_event_handler` invocation per spawned engine object id. -/
def deliverConnReqs (s : UState) (ctx_of_cm : Nat) (cms : List Nat) : UState :=
  cms.foldl (fun st cm => (ucma_event_handler st true cm ctx_of_cm connReqEv).1) s

/-- Number of un-consumed connect-request events for one context in one
session's queue. -/
def connReqCount (s : UState) (f ctxId : Nat) : Nat :=
  ((s.event_list f).filter
    (fun e => e.ctx == ctxId && e.resp_event == EventKind.connectRequest)).length

/-- Current backlog of a context (0 when absent). -/
def backlogOf (s : UState) (ctxId : Nat) : Nat :=
  ((findCtx s ctxId).map Context.backlog).getD 0

/-- Concrete listening context used to instantiate the theorems. -/
def wCtx : Context :=
  { id := 1, ref := 1, events_reported := 4, backlog := 2, file := 0,
    cm_id := some 10, uid := 7, closing := false, destroying := false,
    in_table := true, mc_list := [5] }

/-- Concrete published multicast group owned by `wCtx`. -/
def wMc : Multicast :=
  { ctx := 1, id := 5, events_reported := 3, uid := 9, join_state := 1,
    addr := 0, published := true }

/-- Concrete queued connect-request event targeting `wCtx`. -/
def wEvConn : Event :=
  { ctx := 1, mc := none, cm_id := 11, resp_event := EventKind.connectRequest,
    resp_status := 0, resp_uid := 7, resp_id := 1 }

/-- Concrete queued multicast event targeting `wMc`. -/
def wEvMc : Event :=
  { ctx := 1, mc := some 5, cm_id := 10, resp_event := EventKind.multicastJoin,
    resp_status := 0, resp_uid := 9, resp_id := 5 }

/-- Concrete driver state: one session (0), one listening context, one
group, two queued events. -/
def wState : UState :=
  { ctxs := [wCtx], mcs := [wMc],
    event_list := fun g => if g = 0 then [wEvConn, wEvMc] else [],
    ctx_list := fun g => if g = 0 then [1] else [],
    close_works := [], destroyed_cm_ids := [] }

/-- `wState` with the listener's backlog exhausted. -/
def wState0 : UState :=
  { wState with ctxs := [{ wCtx with backlog := 0 }] }

/-- `wState` with an empty event queue. -/
def wStateEmptyQ : UState :=
  { wState with event_list := fun _ => [] }

/-- `wState` with only the multicast event queued. -/
def wStateMcFirst : UState :=
  { wState with event_list := fun g => if g = 0 then [wEvMc] else [] }

/-- `wState` with the context marked Closing. -/
def wStateClosing : UState :=
  { wState with ctxs := [{ wCtx with closing := true }] }

/-! ## Supporting lemmas -/

theorem le_foldr_max (x : Nat) (l : List Nat) (h : x ∈ l) : x ≤ l.foldr Nat.max 0 := by
  induction l with
  | nil => cases h
  | cons a t ih =>
    rcases List.mem_cons.mp h with h | h
    · subst h; exact Nat.le_max_left _ _
    · exact Nat.le_trans (ih h) (Nat.le_max_right _ _)

theorem fresh_ctx_not_id (s : UState) : ∀ c ∈ s.ctxs, c.id ≠ freshCtxId s := by
  intro c hc
  have : c.id ≤ (s.ctxs.map Context.id).foldr Nat.max 0 :=
    le_foldr_max _ _ (List.mem_map_of_mem _ hc)
  unfold freshCtxId
  omega

theorem fresh_mc_not_id (s : UState) : ∀ m ∈ s.mcs, m.id ≠ freshMcId s := by
  intro m hm
  have : m.id ≤ (s.mcs.map Multicast.id).foldr Nat.max 0 :=
    le_foldr_max _ _ (List.mem_map_of_mem _ hm)
  unfold freshMcId
  omega

theorem find?_map_key_update {α : Type} (key : α → Nat) (l : List α) (k x : Nat)
    (f : α → α) (hf : ∀ a, key (f a) = key a) :
    (l.map (fun a => if key a = k then f a else a)).find? (fun a => key a == x) =
      if x = k then (l.find? (fun a => key a == x)).map f
      else l.find? (fun a => key a == x) := by
  induction l with
  | nil => by_cases h : x = k <;> simp [h]
  | cons a t ih =>
    simp only [List.map_cons]
    by_cases ha : key a = k
    · rw [if_pos ha]
      by_cases hax : key a = x
      · have h1 : ((fun a => key a == x) (f a)) = true := by simp [hf, hax]
        have h2 : ((fun a => key a == x) a) = true := by simp [hax]
        rw [@List.find?_cons_of_pos _ (fun a => key a == x) (f a) _ h1,
            @List.find?_cons_of_pos _ (fun a => key a == x) a _ h2]
        have hxk : x = k := by rw [← hax, ha]
        rw [if_pos hxk]; rfl
      · have h1 : ¬ ((fun a => key a == x) (f a)) = true := by simp [hf, hax]
        have h2 : ¬ ((fun a => key a == x) a) = true := by simp [hax]
        rw [@List.find?_cons_of_neg _ (fun a => key a == x) (f a) _ h1,
            @List.find?_cons_of_neg _ (fun a => key a == x) a _ h2]
        exact ih
    · rw [if_neg ha]
      by_cases hax : key a = x
      · have hxk : ¬ x = k := fun hh => ha (by rw [hax, hh])
        have h2 : ((fun a => key a == x) a) = true := by simp [hax]
        rw [@List.find?_cons_of_pos _ (fun a => key a == x) a _ h2,
            @List.find?_cons_of_pos _ (fun a => key a == x) a _ h2, if_neg hxk]
      · have h2 : ¬ ((fun a => key a == x) a) = true := by simp [hax]
        rw [@List.find?_cons_of_neg _ (fun a => key a == x) a _ h2,
            @List.find?_cons_of_neg _ (fun a => key a == x) a _ h2]
        exact ih

theorem findCtx_updateCtx (s : UState) (k x : Nat) (f : Context → Context)
    (hf : ∀ c, (f c).id = c.id) :
    findCtx (updateCtx s k f) x =
      if x = k then (findCtx s x).map f else findCtx s x := by
  simpa [findCtx, updateCtx] using
    find?_map_key_update Context.id s.ctxs k x f hf

theorem findMc_updateMc (s : UState) (k x : Nat) (f : Multicast → Multicast)
    (hf : ∀ m, (f m).id = m.id) :
    findMc (updateMc s k f) x =
      if x = k then (findMc s x).map f else findMc s x := by
  simpa [findMc, updateMc] using
    find?_map_key_update Multicast.id s.mcs k x f hf

theorem map_update_of_not_mem {α : Type} (key : α → Nat) (l : List α) (k : Nat)
    (f : α → α) (h : ∀ a ∈ l, key a ≠ k) :
    l.map (fun a => if key a = k then f a else a) = l := by
  induction l with
  | nil => rfl
  | cons a t ih =>
    have ha := h a (by simp)
    simp only [List.map_cons, if_neg ha]
    rw [ih (fun b hb => h b (by simp [hb]))]

theorem filter_key_ne_of_not_mem {α : Type} (key : α → Nat) (l : List α) (k : Nat)
    (h : ∀ a ∈ l, key a ≠ k) : l.filter (fun a => key a ≠ k) = l := by
  induction l with
  | nil => rfl
  | cons a t ih =>
    have ha := h a (by simp)
    have hd : (decide (key a ≠ k)) = true := by simp [ha]
    simp only [List.filter_cons, hd, if_true]
    rw [ih (fun b hb => h b (by simp [hb]))]

theorem find?_append_left {α : Type} (p : α → Bool) (l₁ l₂ : List α) {a : α}
    (h : l₁.find? p = some a) : (l₁ ++ l₂).find? p = some a := by
  rw [List.find?_append, h]; rfl

theorem find?_append_right {α : Type} (p : α → Bool) (l₁ l₂ : List α)
    (h : l₁.find? p = none) : (l₁ ++ l₂).find? p = l₂.find? p := by
  rw [List.find?_append, h]; rfl

theorem xaLoadCtx_some {s : UState} {id : Nat} {c : Context}
    (h : xaLoadCtx s id = some c) : findCtx s id = some c ∧ c.in_table = true := by
  unfold xaLoadCtx at h
  cases hf : findCtx s id with
  | none => rw [hf] at h; cases h
  | some c' =>
    rw [hf] at h
    by_cases ht : c'.in_table
    · simp [ht] at h; subst h; exact ⟨rfl, ht⟩
    · simp [ht] at h

theorem findCtx_some_id {s : UState} {id : Nat} {c : Context}
    (h : findCtx s id = some c) : c.id = id := by
  have := List.find?_some h
  simpa using this

theorem findMc_some_id {s : UState} {id : Nat} {m : Multicast}
    (h : findMc s id = some m) : m.id = id := by
  have := List.find?_some h
  simpa using this

theorem event_list_updateCtx (s : UState) (cid : Nat) (f : Context → Context) :
    (updateCtx s cid f).event_list = s.event_list := rfl

theorem event_list_updateMc (s : UState) (mid : Nat) (f : Multicast → Multicast) :
    (updateMc s mid f).event_list = s.event_list := rfl

theorem ctxs_updateMc (s : UState) (mid : Nat) (f : Multicast → Multicast) :
    (updateMc s mid f).ctxs = s.ctxs := rfl

theorem mcs_updateCtx (s : UState) (cid : Nat) (f : Context → Context) :
    (updateCtx s cid f).mcs = s.mcs := rfl

theorem map_inc_dec_ref (l : List Context) (id : Nat) :
    ((l.map (fun c => if c.id = id then { c with ref := c.ref + 1 } else c)).map
      (fun c => if c.id = id then { c with ref := c.ref - 1 } else c)) = l := by
  induction l with
  | nil => rfl
  | cons a t ih =>
    by_cases ha : a.id = id
    · cases a
      simp_all
    · simp [ha, ih]

theorem put_inc_cancel (s : UState) (id : Nat) :
    ucma_put_ctx (updateCtx s id (fun x => { x with ref := x.ref + 1 })) id = s := by
  unfold ucma_put_ctx updateCtx
  simp only []
  rw [map_inc_dec_ref]

theorem get_ctx_ok {s : UState} {file id : Nat} {c : Context}
    (h : xaLoadCtx s id = some c) (hf : c.file = file) (hcm : c.cm_id ≠ none)
    (hcl : c.closing = false) :
    ucma_get_ctx s file id =
      (updateCtx s id (fun x => { x with ref := x.ref + 1 }), Except.ok id) := by
  unfold ucma_get_ctx _ucma_find_context
  rw [h]
  simp [hf, hcm, hcl]

/-! ## Claim theorems -/

/-- Claim C6 (amended): an opcode outside the dispatch table's range is
rejected with InvalidArgument (-EINVAL, not NotSupported); an in-range
opcode with a NULL table entry (get-option, 13) returns NotSupported
(-ENOSYS); a command whose declared input length plus the 8-byte header
exceeds the supplied byte count fails with InvalidArgument before any
handler runs (the result does not depend on the handler). -/
theorem C6_write_dispatch (len hdr_cmd hdr_in : Nat) (r r' : Int) :
    (23 ≤ hdr_cmd → ucma_write len hdr_cmd hdr_in true true r = -EINVAL) ∧
    (hdr_in + 8 > len → ucma_write len hdr_cmd hdr_in true true r = -EINVAL) ∧
    (8 ≤ len → hdr_in + 8 ≤ len → ucma_write len 13 hdr_in true true r = -ENOSYS) ∧
    (hdr_in + 8 > len →
      ucma_write len hdr_cmd hdr_in true true r = ucma_write len hdr_cmd hdr_in true true r') := by
  have htbl : ucma_cmd_table.length = 23 := rfl
  have hnt : ¬ (true = false) := by simp
  have hshort : ∀ rr : Int, hdr_in + 8 > len →
      ucma_write len hdr_cmd hdr_in true true rr = -EINVAL := by
    intro rr h
    unfold ucma_write
    rw [if_neg hnt]
    by_cases hl : len < 8
    · rw [if_pos hl]
    · rw [if_neg hl, if_neg hnt, htbl]
      by_cases hc : hdr_cmd ≥ 23
      · rw [if_pos hc]
      · rw [if_neg hc, if_pos (by omega)]
  refine ⟨?_, hshort r, ?_, ?_⟩
  · intro h
    unfold ucma_write
    rw [if_neg hnt]
    by_cases hl : len < 8
    · rw [if_pos hl]
    · rw [if_neg hl, if_neg hnt, htbl, if_pos (by omega)]
  · intro h1 h2
    unfold ucma_write
    have hgd : ucma_cmd_table.getD 13 false = false := rfl
    rw [if_neg hnt, if_neg (by omega : ¬ len < 8), if_neg hnt, htbl,
        if_neg (by omega : ¬ 13 ≥ 23), if_neg (by omega : ¬ hdr_in + 8 > len), hgd,
        if_pos rfl]
  · intro h
    rw [hshort r h, hshort r' h]

/-- Claim C6 counterexample: opcode 23 is outside the table's range (the
table has entries 0..22), and `ucma_write` rejects it with -EINVAL
(InvalidArgument), not -ENOSYS (NotSupported) as the claim states. -/
theorem C6_cex : ucma_write 16 23 0 true true 0 = -EINVAL ∧
    ucma_write 16 23 0 true true 0 ≠ -ENOSYS := by decide

/-- Witness for C6: concrete instances of each amended conjunct. -/
theorem C6_witness :
    ucma_write 100 23 0 true true 0 = -EINVAL ∧
    ucma_write 100 0 95 true true 0 = -EINVAL ∧
    ucma_write 100 13 4 true true 7 = -ENOSYS ∧
    ucma_write 100 0 95 true true 5 = ucma_write 100 0 95 true true 9 :=
  ⟨(C6_write_dispatch 100 23 0 0 0).1 (by decide),
   (C6_write_dispatch 100 0 95 0 0).2.1 (by decide),
   (C6_write_dispatch 100 13 4 7 0).2.2.1 (by decide) (by decide),
   (C6_write_dispatch 100 0 95 5 9).2.2.2 (by decide)⟩

/-- Claim C7: context lookup by (id, calling Session): an unknown id gives
NotFound (-ENOENT); an id owned by another Session or without an attached
engine handle gives InvalidOwner (-EINVAL); a Closing context gives
Busy (-EIO); otherwise the refcount is incremented and the context is
returned; the device-requiring variant additionally fails with InvalidOwner,
releasing the reference (the state is fully restored), when the engine
object has no bound device. -/
theorem C7_ctx_lookup (s : UState) (file id : Nat) (dev_bound : Nat → Bool) :
    (xaLoadCtx s id = none → ucma_get_ctx s file id = (s, Except.error (-ENOENT))) ∧
    (∀ c, xaLoadCtx s id = some c → (c.file ≠ file ∨ c.cm_id = none) →
      ucma_get_ctx s file id = (s, Except.error (-EINVAL))) ∧
    (∀ c, xaLoadCtx s id = some c → c.file = file → c.cm_id ≠ none → c.closing = true →
      ucma_get_ctx s file id = (s, Except.error (-EIO_code))) ∧
    (∀ c, xaLoadCtx s id = some c → c.file = file → c.cm_id ≠ none → c.closing = false →
      ucma_get_ctx s file id =
        (updateCtx s id (fun x => { x with ref := x.ref + 1 }), Except.ok id) ∧
      findCtx (ucma_get_ctx s file id).1 id = some { c with ref := c.ref + 1 }) ∧
    (∀ c cm, xaLoadCtx s id = some c → c.file = file → c.cm_id = some cm →
      c.closing = false → dev_bound cm = false →
      ucma_get_ctx_dev dev_bound s file id = (s, Except.error (-EINVAL))) := by
  refine ⟨?_, ?_, ?_, ?_, ?_⟩
  · intro h
    unfold ucma_get_ctx _ucma_find_context
    rw [h]
  · intro c h hbad
    unfold ucma_get_ctx _ucma_find_context
    rw [h]
    have : (c.file ≠ file ∨ c.cm_id = none) = True := by simp [hbad]
    simp [this]
  · intro c h hf hcm hcl
    unfold ucma_get_ctx _ucma_find_context
    rw [h]
    simp [hf, hcm, hcl]
  · intro c h hf hcm hcl
    have hcf : findCtx s id = some c := (xaLoadCtx_some h).1
    have hget := get_ctx_ok h hf hcm hcl
    refine ⟨hget, ?_⟩
    rw [hget]
    rw [findCtx_updateCtx s id id (fun x => { x with ref := x.ref + 1 }) (fun x => rfl)]
    simp [hcf]
  · intro c cm h hf hcm hcl hdev
    have hcf : findCtx s id = some c := (xaLoadCtx_some h).1
    have hget := get_ctx_ok h hf (by simp [hcm]) hcl
    have hfu : findCtx (updateCtx s id (fun x => { x with ref := x.ref + 1 })) id =
        some { c with ref := c.ref + 1 } := by
      rw [findCtx_updateCtx s id id (fun x => { x with ref := x.ref + 1 }) (fun x => rfl)]
      simp [hcf]
    unfold ucma_get_ctx_dev
    rw [hget]
    dsimp only
    rw [hfu]
    dsimp only
    rw [hcm]
    dsimp only
    rw [hdev, if_pos rfl, put_inc_cancel]

/-- Witness for C7: all five lookup outcomes at concrete states. -/
theorem C7_witness :
    ucma_get_ctx wState 0 99 = (wState, Except.error (-ENOENT)) ∧
    ucma_get_ctx wState 3 1 = (wState, Except.error (-EINVAL)) ∧
    ucma_get_ctx wStateClosing 0 1 = (wStateClosing, Except.error (-EIO_code)) ∧
    ucma_get_ctx wState 0 1 =
      (updateCtx wState 1 (fun x => { x with ref := x.ref + 1 }), Except.ok 1) ∧
    ucma_get_ctx_dev (fun _ => false) wState 0 1 = (wState, Except.error (-EINVAL)) :=
  ⟨(C7_ctx_lookup wState 0 99 (fun _ => false)).1 (by decide),
   (C7_ctx_lookup wState 3 1 (fun _ => false)).2.1 wCtx (by decide) (by decide),
   (C7_ctx_lookup wStateClosing 0 1 (fun _ => false)).2.2.1 { wCtx with closing := true }
     (by decide) (by decide) (by decide) (by decide),
   ((C7_ctx_lookup wState 0 1 (fun _ => false)).2.2.2.1 wCtx
     (by decide) (by decide) (by decide) (by decide)).1,
   (C7_ctx_lookup wState 0 1 (fun _ => false)).2.2.2.2 wCtx 10
     (by decide) (by decide) (by decide) (by decide) (by decide)⟩

/-- Claim C10: the listen backlog clamp.  A requested backlog strictly
between zero and `max_backlog` is used as-is; zero or any value at or above
the maximum is replaced by `max_backlog`; a negative 32-bit value, as
reinterpreted through the `__u32` command field, also lands at or above the
maximum and is replaced; the clamped value is stored in the context and is
the value handed to `rdma_listen`. -/
theorem C10_listen_clamp (s : UState) (file id b : Nat) (lr : Int) (c : Context)
    (h : xaLoadCtx s id = some c) (hf : c.file = file) (hcm : c.cm_id ≠ none)
    (hcl : c.closing = false) :
    (ucma_listen s file true id b lr).2.2 = some (listen_backlog b) ∧
    findCtx (ucma_listen s file true id b lr).1 id =
      some { c with backlog := listen_backlog b } ∧
    (0 < b ∧ b < max_backlog → listen_backlog b = b) ∧
    (¬ (0 < b ∧ b < max_backlog) → listen_backlog b = max_backlog) ∧
    (∀ n : Int, -(2 ^ 31) ≤ n → n < 0 → listen_backlog (n % 2 ^ 32).toNat = max_backlog) := by
  have hcf : findCtx s id = some c := (xaLoadCtx_some h).1
  have hget := get_ctx_ok h hf hcm hcl
  have hrun : ucma_listen s file true id b lr =
      (ucma_put_ctx
        (updateCtx (updateCtx s id (fun x => { x with ref := x.ref + 1 })) id
          (fun x => { x with backlog := listen_backlog b })) id,
       lr, some (listen_backlog b)) := by
    unfold ucma_listen
    rw [hget]
    rfl
  refine ⟨by rw [hrun], ?_, ?_, ?_, ?_⟩
  · rw [hrun]
    unfold ucma_put_ctx
    rw [findCtx_updateCtx _ id id (fun x => { x with ref := x.ref - 1 }) (fun x => rfl)]
    rw [findCtx_updateCtx _ id id (fun x => { x with backlog := listen_backlog b }) (fun x => rfl)]
    rw [findCtx_updateCtx _ id id (fun x => { x with ref := x.ref + 1 }) (fun x => rfl)]
    simp [hcf]
  · intro hb
    simp [listen_backlog, hb]
  · intro hb
    simp only [listen_backlog]
    rw [if_neg hb]
  · intro n h1 h2
    have e32 : (2 : Int) ^ 32 = 4294967296 := by norm_num
    have e31 : (2 : Int) ^ 31 = 2147483648 := by norm_num
    rw [e32] at *
    rw [e31] at h1
    have hge : 1024 ≤ (n % 4294967296).toNat := by omega
    have hx : ¬ ((n % 4294967296).toNat < max_backlog) := by
      simp only [max_backlog]
      omega
    simp only [listen_backlog]
    rw [if_neg (by intro hc; exact hx hc.2)]

theorem ctx_list_updateCtx (s : UState) (cid : Nat) (f : Context → Context) :
    (updateCtx s cid f).ctx_list = s.ctx_list := rfl

theorem ctxs_move_events (s : UState) (cid nf : Nat) :
    (ucma_move_events s cid nf).ctxs = s.ctxs := by
  unfold ucma_move_events
  cases findCtx s cid <;> rfl

theorem ctx_list_move_events (s : UState) (cid nf : Nat) :
    (ucma_move_events s cid nf).ctx_list = s.ctx_list := by
  unfold ucma_move_events
  cases findCtx s cid <;> rfl

theorem findCtx_move_events (s : UState) (cid nf x : Nat) :
    findCtx (ucma_move_events s cid nf) x = findCtx s x := by
  unfold findCtx
  rw [ctxs_move_events]

theorem move_events_spec (s : UState) (cid nf : Nat) (c : Context)
    (hc : findCtx s cid = some c) (hne : c.file ≠ nf) :
    (ucma_move_events s cid nf).event_list nf =
      s.event_list nf ++ (s.event_list c.file).filter (fun e => e.ctx == cid) ∧
    (ucma_move_events s cid nf).event_list c.file =
      (s.event_list c.file).filter (fun e => e.ctx != cid) ∧
    (∀ g, g ≠ nf → g ≠ c.file → (ucma_move_events s cid nf).event_list g = s.event_list g) := by
  unfold ucma_move_events
  rw [hc]
  have hnfc : ¬ (nf = c.file) := fun h => hne h.symm
  refine ⟨?_, ?_, ?_⟩
  · dsimp only
    rw [if_pos rfl, if_neg hnfc]
  · dsimp only
    rw [if_neg hne, if_pos rfl]
  · intro g h1 h2
    dsimp only
    rw [if_neg h1, if_neg h2]

/-- Claim C5 (amended): the engine callback returns a truthy refusal exactly
when the event is a connect-request and either the event-struct allocation
failed or the listener's backlog is exhausted — so allocation failure on a
connect-request is refused (truthy), not acknowledged; allocation failure on
any other event kind drops the event silently (state unchanged, falsy
return); every other path acknowledges receipt with 0. -/
theorem C5_handler_return (s : UState) (alloc_ok : Bool) (cm_id ctx_of_cm : Nat)
    (ev : EngineEvent) :
    ((ucma_event_handler s alloc_ok cm_id ctx_of_cm ev).2.1 ≠ 0 ↔
      (ev.event = EventKind.connectRequest ∧
        (alloc_ok = false ∨ ∃ c, findCtx s ctx_of_cm = some c ∧ c.backlog = 0))) ∧
    (alloc_ok = false → ev.event ≠ EventKind.connectRequest →
      ucma_event_handler s alloc_ok cm_id ctx_of_cm ev = (s, 0, false)) := by
  cases alloc_ok with
  | false =>
    constructor
    · by_cases he : ev.event = EventKind.connectRequest
      · simp [ucma_event_handler, he]
      · simp [ucma_event_handler, he]
    · intro _ hne
      simp [ucma_event_handler, hne]
  | true =>
    constructor
    · cases hc : findCtx s ctx_of_cm with
      | none => simp [ucma_event_handler, hc]
      | some c =>
        by_cases he : ev.event = EventKind.connectRequest
        · by_cases hb : c.backlog = 0
          · simp [ucma_event_handler, hc, he, hb, ENOMEM]
          · simp [ucma_event_handler, hc, he, hb]
        · by_cases hu : c.uid = 0 ∨ c.cm_id ≠ some cm_id
          · simp [ucma_event_handler, hc, he, hu]
          · simp [ucma_event_handler, hc, he, hu]
    · intro h
      simp at h

/-- Claim C5 counterexample: allocation failure on a connect-request is not
a backlog-exhausted case (the listener's backlog is 2), yet the callback
returns 1 — truthy — where the claim requires a falsy acknowledgement. -/
theorem C5_cex :
    (ucma_event_handler wState false 11 1 connReqEv).2.1 = 1 ∧
    ((1 : Int) ≠ 0) ∧ backlogOf wState 1 = 2 := by decide

/-- Witness for C5: a truthy refusal at a backlog-exhausted listener and a
silent falsy drop for allocation failure on a non-connect-request event. -/
theorem C5_witness :
    (ucma_event_handler wState0 true 11 1 connReqEv).2.1 ≠ 0 ∧
    ucma_event_handler wState false 11 1 otherEv = (wState, 0, false) :=
  ⟨(C5_handler_return wState0 true 11 1 connReqEv).1.mpr
      ⟨rfl, Or.inr ⟨{ wCtx with backlog := 0 }, by decide, rfl⟩⟩,
   (C5_handler_return wState false 11 1 otherEv).2 rfl (by decide)⟩

/-- One connect-request delivery never increases the number of queued
connect-request events plus the remaining backlog. -/
theorem connReq_step (s : UState) (cm ctxId f : Nat) :
    connReqCount ((ucma_event_handler s true cm ctxId connReqEv).1) f ctxId +
      backlogOf ((ucma_event_handler s true cm ctxId connReqEv).1) ctxId ≤
    connReqCount s f ctxId + backlogOf s ctxId := by
  cases hc : findCtx s ctxId with
  | none => simp [ucma_event_handler, hc]
  | some c =>
    have hid : c.id = ctxId := findCtx_some_id hc
    by_cases hb : c.backlog = 0
    · simp [ucma_event_handler, hc, hb, connReqEv]
    · have hhandler : (ucma_event_handler s true cm ctxId connReqEv).1 =
          enqueueEvent (updateCtx s ctxId (fun x => { x with backlog := x.backlog - 1 }))
            c.file (ucma_set_event_context s c connReqEv cm) := by
        simp [ucma_event_handler, hc, hb, connReqEv]
      have hbs : backlogOf s ctxId = c.backlog := by
        unfold backlogOf
        rw [hc]
        rfl
      have hbl : backlogOf ((ucma_event_handler s true cm ctxId connReqEv).1) ctxId =
          c.backlog - 1 := by
        rw [hhandler]
        unfold backlogOf
        have hsame : findCtx
            (enqueueEvent (updateCtx s ctxId (fun x => { x with backlog := x.backlog - 1 }))
              c.file (ucma_set_event_context s c connReqEv cm)) ctxId =
            findCtx (updateCtx s ctxId (fun x => { x with backlog := x.backlog - 1 })) ctxId := rfl
        rw [hsame,
            findCtx_updateCtx s ctxId ctxId (fun x => { x with backlog := x.backlog - 1 })
              (fun x => rfl), if_pos rfl, hc]
        rfl
      by_cases hff : f = c.file
      · have hcount : connReqCount ((ucma_event_handler s true cm ctxId connReqEv).1) f ctxId =
            connReqCount s f ctxId + 1 := by
          rw [hhandler, hff]
          unfold connReqCount enqueueEvent
          simp [List.filter_append, ucma_set_event_context, connReqEv, hid,
                event_list_updateCtx]
        rw [hcount, hbl, hbs]
        omega
      · have hcount : connReqCount ((ucma_event_handler s true cm ctxId connReqEv).1) f ctxId =
            connReqCount s f ctxId := by
          rw [hhandler]
          unfold connReqCount enqueueEvent
          simp [hff, event_list_updateCtx]
        rw [hcount, hbl, hbs]
        omega

/-- A whole burst of connect-request deliveries never increases queued
connect-request events plus remaining backlog. -/
theorem deliver_bound (ctxId f : Nat) (cms : List Nat) : ∀ s : UState,
    connReqCount (deliverConnReqs s ctxId cms) f ctxId +
      backlogOf (deliverConnReqs s ctxId cms) ctxId ≤
    connReqCount s f ctxId + backlogOf s ctxId := by
  induction cms with
  | nil => intro s; simp [deliverConnReqs]
  | cons cm t ih =>
    intro s
    have h1 := connReq_step s cm ctxId f
    have h2 := ih ((ucma_event_handler s true cm ctxId connReqEv).1)
    simp only [deliverConnReqs, List.foldl_cons] at h2 ⊢
    omega

/-- Claim C1: a connect-request delivered by the engine callback (with the
event struct successfully allocated) is refused with -ENOMEM
(ResourceExhausted) and not enqueued when the listener's backlog is zero;
with a positive backlog the backlog drops by one, the event is appended to
the owning session's queue and the poll waiter is woken; consequently a
listener starting with backlog N (and no queued connect-requests) holds at
most N un-accepted connect-request events after any burst of deliveries. -/
theorem C1_connreq_admission (s : UState) (cm_id ctx_of_cm : Nat) (ev : EngineEvent)
    (c : Context) (hc : findCtx s ctx_of_cm = some c)
    (hev : ev.event = EventKind.connectRequest) :
    (c.backlog = 0 →
      ucma_event_handler s true cm_id ctx_of_cm ev = (s, -ENOMEM, false)) ∧
    (0 < c.backlog →
      ucma_event_handler s true cm_id ctx_of_cm ev =
        (enqueueEvent (updateCtx s ctx_of_cm (fun x => { x with backlog := x.backlog - 1 }))
          c.file (ucma_set_event_context s c ev cm_id), 0, true) ∧
      (ucma_event_handler s true cm_id ctx_of_cm ev).1.event_list c.file =
        s.event_list c.file ++
          [{ ctx := c.id, mc := none, cm_id := cm_id, resp_event := ev.event,
             resp_status := ev.status, resp_uid := c.uid, resp_id := c.id }] ∧
      backlogOf (ucma_event_handler s true cm_id ctx_of_cm ev).1 ctx_of_cm = c.backlog - 1) ∧
    (∀ cms : List Nat, connReqCount s c.file ctx_of_cm = 0 →
      connReqCount (deliverConnReqs s ctx_of_cm cms) c.file ctx_of_cm ≤ c.backlog) := by
  have hid : c.id = ctx_of_cm := findCtx_some_id hc
  refine ⟨?_, ?_, ?_⟩
  · intro hb
    simp [ucma_event_handler, hc, hev, hb]
  · intro hb
    have hb0 : ¬ c.backlog = 0 := by omega
    have hhandler : ucma_event_handler s true cm_id ctx_of_cm ev =
        (enqueueEvent (updateCtx s ctx_of_cm (fun x => { x with backlog := x.backlog - 1 }))
          c.file (ucma_set_event_context s c ev cm_id), 0, true) := by
      simp [ucma_event_handler, hc, hev, hb0]
    refine ⟨hhandler, ?_, ?_⟩
    · rw [hhandler]
      unfold enqueueEvent ucma_set_event_context
      rw [hev]
      simp [event_list_updateCtx]
    · rw [hhandler]
      unfold backlogOf
      have hsame : findCtx
          (enqueueEvent (updateCtx s ctx_of_cm (fun x => { x with backlog := x.backlog - 1 }))
            c.file (ucma_set_event_context s c ev cm_id)) ctx_of_cm =
          findCtx (updateCtx s ctx_of_cm (fun x => { x with backlog := x.backlog - 1 }))
            ctx_of_cm := rfl
      rw [hsame,
          findCtx_updateCtx s ctx_of_cm ctx_of_cm (fun x => { x with backlog := x.backlog - 1 })
            (fun x => rfl), if_pos rfl, hc]
      rfl
  · intro cms h0
    have hbs : backlogOf s ctx_of_cm = c.backlog := by
      unfold backlogOf
      rw [hc]
      rfl
    have := deliver_bound ctx_of_cm c.file cms s
    omega

/-- Witness for C1: refusal at an exhausted listener; enqueue at a live
listener; the at-most-N bound for a burst of three requests at backlog 2. -/
theorem C1_witness :
    ucma_event_handler wState0 true 11 1 connReqEv = (wState0, -ENOMEM, false) ∧
    (ucma_event_handler wState true 11 1 connReqEv).1.event_list 0 =
      wState.event_list 0 ++
        [{ ctx := 1, mc := none, cm_id := 11, resp_event := EventKind.connectRequest,
           resp_status := 0, resp_uid := 7, resp_id := 1 }] ∧
    connReqCount (deliverConnReqs wStateEmptyQ 1 [21, 22, 23]) 0 1 ≤ 2 :=
  ⟨(C1_connreq_admission wState0 11 1 connReqEv { wCtx with backlog := 0 }
      (by decide) rfl).1 rfl,
   ((C1_connreq_admission wState 11 1 connReqEv wCtx (by decide) rfl).2.1 (by decide)).2.1,
   (C1_connreq_admission wStateEmptyQ 11 1 connReqEv wCtx (by decide) rfl).2.2
     [21, 22, 23] (by decide)⟩

/-- Witness for C10: concrete clamp outcomes for an in-range request, a
zero request, an at-maximum request, and a negative 32-bit request. -/
theorem C10_witness :
    (ucma_listen wState 0 true 1 100 0).2.2 = some (listen_backlog 100) ∧
    listen_backlog 100 = 100 ∧
    listen_backlog 0 = max_backlog ∧
    listen_backlog 5000 = max_backlog ∧
    listen_backlog ((-7 : Int) % 2 ^ 32).toNat = max_backlog :=
  ⟨(C10_listen_clamp wState 0 1 100 0 wCtx (by decide) (by decide) (by decide) (by decide)).1,
   (C10_listen_clamp wState 0 1 100 0 wCtx (by decide) (by decide) (by decide)
      (by decide)).2.2.1 (by decide),
   (C10_listen_clamp wState 0 1 0 0 wCtx (by decide) (by decide) (by decide)
      (by decide)).2.2.2.1 (by decide),
   (C10_listen_clamp wState 0 1 5000 0 wCtx (by decide) (by decide) (by decide)
      (by decide)).2.2.2.1 (by decide),
   (C10_listen_clamp wState 0 1 0 0 wCtx (by decide) (by decide) (by decide)
      (by decide)).2.2.2.2 (-7) (by norm_num) (by norm_num)⟩

theorem findCtx_set_queue (s : UState) (q : Nat → List Event) (x : Nat) :
    findCtx { s with event_list := q } x = findCtx s x := rfl

theorem findMc_set_queue (s : UState) (q : Nat → List Event) (x : Nat) :
    findMc { s with event_list := q } x = findMc s x := rfl

theorem findMc_updateCtx (s : UState) (cid : Nat) (f : Context → Context) (x : Nat) :
    findMc (updateCtx s cid f) x = findMc s x := rfl

theorem findCtx_updateMc (s : UState) (mid : Nat) (f : Multicast → Multicast) (x : Nat) :
    findCtx (updateMc s mid f) x = findCtx s x := rfl

theorem event_list_set_queue (s : UState) (q : Nat → List Event) :
    ({ s with event_list := q } : UState).event_list = q := rfl

theorem ctx_list_set_queue (s : UState) (q : Nat → List Event) :
    ({ s with event_list := q } : UState).ctx_list = s.ctx_list := rfl

theorem filter_nat_ne_of_not_mem (l : List Nat) (k : Nat) (h : k ∉ l) :
    l.filter (fun x => x ≠ k) = l := by
  induction l with
  | nil => rfl
  | cons a t ih =>
    have ha : a ≠ k := fun hh => h (by rw [hh]; exact List.mem_cons_self _ _)
    have hd : (decide (a ≠ k)) = true := by simp [ha]
    simp only [List.filter_cons, hd, if_true]
    rw [ih (fun hh => h (List.mem_cons_of_mem _ hh))]

theorem find?_ctxs_fresh_none (s : UState) :
    s.ctxs.find? (fun c => c.id == freshCtxId s) = none := by
  apply List.find?_eq_none.mpr
  intro c hc
  simpa using fresh_ctx_not_id s c hc

theorem findCtx_alloc (s : UState) (file x : Nat) :
    findCtx (ucma_alloc_ctx s file).1 x =
      if x = freshCtxId s then
        some { id := freshCtxId s, ref := 1, events_reported := 0, backlog := 0,
               file := file, cm_id := none, uid := 0, closing := false,
               destroying := false, in_table := true, mc_list := [] }
      else findCtx s x := by
  unfold findCtx ucma_alloc_ctx
  dsimp only
  by_cases hx : x = freshCtxId s
  · subst hx
    rw [if_pos rfl, find?_append_right _ _ _ (find?_ctxs_fresh_none s)]
    simp
  · rw [if_neg hx, List.find?_append]
    have hsing : ([({ id := freshCtxId s, ref := 1, events_reported := 0, backlog := 0,
                      file := file, cm_id := none, uid := 0, closing := false,
                      destroying := false, in_table := true,
                      mc_list := [] } : Context)]).find? (fun c => c.id == x) = none := by
      have : ¬ (freshCtxId s = x) := fun hh => hx hh.symm
      simp [this]
    rw [hsing]
    cases s.ctxs.find? (fun c => c.id == x) <;> rfl

theorem ctx_list_alloc (s : UState) (file : Nat) :
    ((ucma_alloc_ctx s file).1).ctx_list =
      fun g => if g = file then s.ctx_list g ++ [freshCtxId s] else s.ctx_list g := rfl

/-- Unwinding the context freshly created by `ucma_alloc_ctx` (and given a
uid) restores the heap and every session's context list, leaving the event
queues untouched; `d` is whatever `destroyed_cm_ids` holds at unwind time. -/
theorem ctxUnwind_alloc_spec (s : UState) (file uid : Nat) (d : List Nat)
    (hfresh : freshCtxId s ∉ s.ctx_list file) :
    (ctxUnwind
      { updateCtx (ucma_alloc_ctx s file).1 (freshCtxId s) (fun c => { c with uid := uid })
        with destroyed_cm_ids := d }
      (freshCtxId s)).ctxs = s.ctxs ∧
    (∀ g, (ctxUnwind
      { updateCtx (ucma_alloc_ctx s file).1 (freshCtxId s) (fun c => { c with uid := uid })
        with destroyed_cm_ids := d }
      (freshCtxId s)).ctx_list g = s.ctx_list g) ∧
    (ctxUnwind
      { updateCtx (ucma_alloc_ctx s file).1 (freshCtxId s) (fun c => { c with uid := uid })
        with destroyed_cm_ids := d }
      (freshCtxId s)).event_list = s.event_list ∧
    (ctxUnwind
      { updateCtx (ucma_alloc_ctx s file).1 (freshCtxId s) (fun c => { c with uid := uid })
        with destroyed_cm_ids := d }
      (freshCtxId s)).destroyed_cm_ids = d := by
  have hnotin := fresh_ctx_not_id s
  have hs1ctxs :
      ({ updateCtx (ucma_alloc_ctx s file).1 (freshCtxId s)
           (fun c => { c with uid := uid }) with destroyed_cm_ids := d } : UState).ctxs =
      s.ctxs ++
        [{ id := freshCtxId s, ref := 1, events_reported := 0, backlog := 0, file := file,
           cm_id := none, uid := uid, closing := false, destroying := false,
           in_table := true, mc_list := [] }] := by
    show ((s.ctxs ++
        [({ id := freshCtxId s, ref := 1, events_reported := 0, backlog := 0, file := file,
            cm_id := none, uid := 0, closing := false, destroying := false,
            in_table := true, mc_list := [] } : Context)]).map fun (c : Context) =>
        if c.id = freshCtxId s then { c with uid := uid } else c) = _
    rw [List.map_append,
        map_update_of_not_mem Context.id s.ctxs (freshCtxId s) _ hnotin]
    simp
  have hfind : findCtx
      { updateCtx (ucma_alloc_ctx s file).1 (freshCtxId s)
          (fun c => { c with uid := uid }) with destroyed_cm_ids := d }
      (freshCtxId s) =
      some { id := freshCtxId s, ref := 1, events_reported := 0, backlog := 0, file := file,
             cm_id := none, uid := uid, closing := false, destroying := false,
             in_table := true, mc_list := [] } := by
    unfold findCtx
    rw [hs1ctxs, find?_append_right _ _ _ (find?_ctxs_fresh_none s)]
    simp
  unfold ctxUnwind
  rw [hfind]
  refine ⟨?_, ?_, rfl, rfl⟩
  · show (({ updateCtx (ucma_alloc_ctx s file).1 (freshCtxId s)
        (fun c => { c with uid := uid }) with destroyed_cm_ids := d } : UState).ctxs.filter
          (fun x => x.id ≠ freshCtxId s)) = s.ctxs
    rw [hs1ctxs, List.filter_append,
        filter_key_ne_of_not_mem Context.id s.ctxs (freshCtxId s) hnotin]
    simp
  · intro g
    show (if g = file then
          ((if g = file then s.ctx_list g ++ [freshCtxId s] else s.ctx_list g).filter
            (fun x => x ≠ freshCtxId s))
        else (if g = file then s.ctx_list g ++ [freshCtxId s] else s.ctx_list g)) =
        s.ctx_list g
    by_cases hg : g = file
    · subst hg
      rw [if_pos rfl, if_pos rfl, List.filter_append, filter_nat_ne_of_not_mem _ _ hfresh]
      simp
    · rw [if_neg hg, if_neg hg]

/-- `ucma_create_id` when the engine refuses to create the connection
object: the error is returned and every piece of created state is gone. -/
theorem create_id_err_spec (s : UState) (file uid : Nat) (e : Int)
    (hfresh : freshCtxId s ∉ s.ctx_list file) :
    (ucma_create_id s file true true RDMA_PS_TCP 0 uid true (Except.error e) true).2 = e ∧
    (ucma_create_id s file true true RDMA_PS_TCP 0 uid true (Except.error e) true).1.ctxs =
      s.ctxs ∧
    (∀ g, (ucma_create_id s file true true RDMA_PS_TCP 0 uid true
      (Except.error e) true).1.ctx_list g = s.ctx_list g) ∧
    (ucma_create_id s file true true RDMA_PS_TCP 0 uid true
      (Except.error e) true).1.event_list = s.event_list ∧
    (ucma_create_id s file true true RDMA_PS_TCP 0 uid true
      (Except.error e) true).1.destroyed_cm_ids = s.destroyed_cm_ids := by
  have hgen := ctxUnwind_alloc_spec s file uid s.destroyed_cm_ids hfresh
  exact ⟨rfl, hgen.1, hgen.2.1, hgen.2.2.1, hgen.2.2.2⟩

/-- `ucma_create_id` when only the final id-response copy fails: -EFAULT is
returned, the created engine object is destroyed, and every piece of
created state is gone. -/
theorem create_id_copyfail_spec (s : UState) (file uid cm : Nat)
    (hfresh : freshCtxId s ∉ s.ctx_list file) :
    (ucma_create_id s file true true RDMA_PS_TCP 0 uid true (Except.ok cm) false).2 =
      -EFAULT ∧
    (ucma_create_id s file true true RDMA_PS_TCP 0 uid true (Except.ok cm) false).1.ctxs =
      s.ctxs ∧
    (∀ g, (ucma_create_id s file true true RDMA_PS_TCP 0 uid true
      (Except.ok cm) false).1.ctx_list g = s.ctx_list g) ∧
    (ucma_create_id s file true true RDMA_PS_TCP 0 uid true
      (Except.ok cm) false).1.event_list = s.event_list ∧
    (ucma_create_id s file true true RDMA_PS_TCP 0 uid true
      (Except.ok cm) false).1.destroyed_cm_ids = s.destroyed_cm_ids ++ [cm] := by
  have hgen := ctxUnwind_alloc_spec s file uid (s.destroyed_cm_ids ++ [cm]) hfresh
  exact ⟨rfl, hgen.1, hgen.2.1, hgen.2.2.1, hgen.2.2.2⟩

/-- Claim C8: a create-context command failing after registry insertion —
either because engine connection-object creation fails or because the final
id-response copy fails — fully unwinds the context (erased from the
registry, unlinked from the session's context list, freed, and for the copy
failure the engine object destroyed) before the error is returned, leaving
no registration behind. -/
theorem C8_create_unwind (s : UState) (file uid : Nat) (e : Int) (cm : Nat)
    (hfresh : freshCtxId s ∉ s.ctx_list file) :
    ((ucma_create_id s file true true RDMA_PS_TCP 0 uid true (Except.error e) true).2 = e ∧
     (ucma_create_id s file true true RDMA_PS_TCP 0 uid true (Except.error e) true).1.ctxs =
       s.ctxs ∧
     (∀ g, (ucma_create_id s file true true RDMA_PS_TCP 0 uid true
       (Except.error e) true).1.ctx_list g = s.ctx_list g) ∧
     findCtx (ucma_create_id s file true true RDMA_PS_TCP 0 uid true
       (Except.error e) true).1 (freshCtxId s) = none) ∧
    ((ucma_create_id s file true true RDMA_PS_TCP 0 uid true (Except.ok cm) false).2 =
       -EFAULT ∧
     (ucma_create_id s file true true RDMA_PS_TCP 0 uid true (Except.ok cm) false).1.ctxs =
       s.ctxs ∧
     (∀ g, (ucma_create_id s file true true RDMA_PS_TCP 0 uid true
       (Except.ok cm) false).1.ctx_list g = s.ctx_list g) ∧
     (ucma_create_id s file true true RDMA_PS_TCP 0 uid true
       (Except.ok cm) false).1.destroyed_cm_ids = s.destroyed_cm_ids ++ [cm] ∧
     findCtx (ucma_create_id s file true true RDMA_PS_TCP 0 uid true
       (Except.ok cm) false).1 (freshCtxId s) = none) := by
  have h1 := create_id_err_spec s file uid e hfresh
  have h2 := create_id_copyfail_spec s file uid cm hfresh
  refine ⟨⟨h1.1, h1.2.1, h1.2.2.1, ?_⟩, ⟨h2.1, h2.2.1, h2.2.2.1, h2.2.2.2.2, ?_⟩⟩
  · unfold findCtx
    rw [h1.2.1, find?_ctxs_fresh_none s]
  · unfold findCtx
    rw [h2.2.1, find?_ctxs_fresh_none s]

/-- Witness for C8: both failure modes at the concrete state; the context
heap and context list are exactly as before the failed create. -/
theorem C8_witness :
    (ucma_create_id wState 0 true true RDMA_PS_TCP 0 7 true (Except.error (-19)) true).2 =
      -19 ∧
    (ucma_create_id wState 0 true true RDMA_PS_TCP 0 7 true
      (Except.error (-19)) true).1.ctxs = wState.ctxs ∧
    (ucma_create_id wState 0 true true RDMA_PS_TCP 0 7 true
      (Except.ok 42) false).1.ctxs = wState.ctxs ∧
    (ucma_create_id wState 0 true true RDMA_PS_TCP 0 7 true
      (Except.ok 42) false).1.ctx_list 0 = wState.ctx_list 0 ∧
    (ucma_create_id wState 0 true true RDMA_PS_TCP 0 7 true
      (Except.ok 42) false).1.destroyed_cm_ids = wState.destroyed_cm_ids ++ [42] :=
  ⟨(C8_create_unwind wState 0 7 (-19) 42 (by decide)).1.1,
   (C8_create_unwind wState 0 7 (-19) 42 (by decide)).1.2.1,
   (C8_create_unwind wState 0 7 (-19) 42 (by decide)).2.2.1,
   (C8_create_unwind wState 0 7 (-19) 42 (by decide)).2.2.2.1 0,
   (C8_create_unwind wState 0 7 (-19) 42 (by decide)).2.2.2.2.1⟩

/-- Claim C3: migrating a context between two distinct sessions moves exactly
the queued events targeting that context to the tail of the destination
queue in their original relative order, removes them from the source queue,
relinks the context into the destination's context list, updates its
owning-session reference, and reports `events_reported`; a self-migration
(source = destination) changes nothing and still reports the count.  Events
whose target is one of the context's groups carry the parent context as
their `ctx` target (`ucma_set_event_context` always sets `uevent->ctx` to
the parent), so they move with it. -/
theorem C3_migrate (s : UState) (new_file cur_fd_file id : Nat) (c : Context)
    (h : xaLoadCtx s id = some c) (hf : c.file = cur_fd_file) (hcm : c.cm_id ≠ none)
    (hcl : c.closing = false) :
    (c.file = new_file →
      ucma_migrate_id s new_file true true true cur_fd_file id true =
        (s, 0, some c.events_reported)) ∧
    (c.file ≠ new_file →
      (ucma_migrate_id s new_file true true true cur_fd_file id true).2.1 = 0 ∧
      (ucma_migrate_id s new_file true true true cur_fd_file id true).2.2 =
        some c.events_reported ∧
      (ucma_migrate_id s new_file true true true cur_fd_file id true).1.event_list new_file =
        s.event_list new_file ++ (s.event_list c.file).filter (fun e => e.ctx == id) ∧
      (ucma_migrate_id s new_file true true true cur_fd_file id true).1.event_list c.file =
        (s.event_list c.file).filter (fun e => e.ctx != id) ∧
      (∀ g, g ≠ new_file → g ≠ c.file →
        (ucma_migrate_id s new_file true true true cur_fd_file id true).1.event_list g =
          s.event_list g) ∧
      findCtx (ucma_migrate_id s new_file true true true cur_fd_file id true).1 id =
        some { c with file := new_file } ∧
      (ucma_migrate_id s new_file true true true cur_fd_file id true).1.ctx_list new_file =
        s.ctx_list new_file ++ [id] ∧
      (ucma_migrate_id s new_file true true true cur_fd_file id true).1.ctx_list c.file =
        (s.ctx_list c.file).filter (fun x => x ≠ id)) ∧
    (∀ (ctx' : Context) (ev : EngineEvent) (cm : Nat),
      (ucma_set_event_context s ctx' ev cm).ctx = ctx'.id) := by
  have hcf : findCtx s id = some c := (xaLoadCtx_some h).1
  have hget := get_ctx_ok h hf hcm hcl
  have hfu : findCtx (updateCtx s id (fun x => { x with ref := x.ref + 1 })) id =
      some { c with ref := c.ref + 1 } := by
    rw [findCtx_updateCtx s id id (fun x => { x with ref := x.ref + 1 }) (fun x => rfl)]
    simp [hcf]
  refine ⟨?_, ?_, ?_⟩
  · intro hsame
    unfold ucma_migrate_id
    rw [hget]
    dsimp only
    rw [hfu]
    dsimp only
    rw [if_pos (show ({ c with ref := c.ref + 1 } : Context).file = new_file from hsame)]
    rw [put_inc_cancel]
    rfl
  · intro hne
    have hne' : ¬ (({ c with ref := c.ref + 1 } : Context).file = new_file) := hne
    have hrun : ucma_migrate_id s new_file true true true cur_fd_file id true =
        (ucma_put_ctx
          (updateCtx
            (ucma_move_events
              { updateCtx s id (fun x => { x with ref := x.ref + 1 }) with
                ctx_list := fun g =>
                  if g = new_file then
                    (if g = c.file then (s.ctx_list g).filter (fun x => x ≠ id)
                     else s.ctx_list g) ++ [id]
                  else
                    (if g = c.file then (s.ctx_list g).filter (fun x => x ≠ id)
                     else s.ctx_list g) }
              id new_file)
            id (fun x => { x with file := new_file }))
          id,
         0, some c.events_reported) := by
      unfold ucma_migrate_id
      rw [hget]
      dsimp only
      rw [hfu]
      dsimp only
      rw [if_neg hne']
      rfl
    rw [hrun]
    set S3 : UState :=
      { updateCtx s id (fun x => { x with ref := x.ref + 1 }) with
        ctx_list := fun g =>
          if g = new_file then
            (if g = c.file then (s.ctx_list g).filter (fun x => x ≠ id)
             else s.ctx_list g) ++ [id]
          else
            (if g = c.file then (s.ctx_list g).filter (fun x => x ≠ id)
             else s.ctx_list g) } with hS3
    have hfu3 : findCtx S3 id = some { c with ref := c.ref + 1 } := hfu
    have hspec := move_events_spec S3 id new_file { c with ref := c.ref + 1 } hfu3 hne'
    have hel : (ucma_put_ctx
        (updateCtx (ucma_move_events S3 id new_file) id
          (fun x => { x with file := new_file })) id).event_list =
        (ucma_move_events S3 id new_file).event_list := rfl
    have hcl2 : (ucma_put_ctx
        (updateCtx (ucma_move_events S3 id new_file) id
          (fun x => { x with file := new_file })) id).ctx_list =
        (ucma_move_events S3 id new_file).ctx_list := rfl
    refine ⟨rfl, rfl, ?_, ?_, ?_, ?_, ?_, ?_⟩
    · rw [hel, hspec.1]
      rfl
    · rw [hel]
      rw [show (s.event_list c.file) =
            (S3.event_list (({ c with ref := c.ref + 1 } : Context).file)) from rfl] at *
      rw [hspec.2.1]
    · intro g h1 h2
      rw [hel, hspec.2.2 g h1 h2]
      rfl
    · unfold ucma_put_ctx
      rw [findCtx_updateCtx _ id id (fun x => { x with ref := x.ref - 1 }) (fun x => rfl),
          if_pos rfl,
          findCtx_updateCtx _ id id (fun x => { x with file := new_file }) (fun x => rfl),
          if_pos rfl, findCtx_move_events, hfu3]
      simp
    · rw [hcl2, ctx_list_move_events]
      have : S3.ctx_list new_file =
          (if new_file = c.file then (s.ctx_list new_file).filter (fun x => x ≠ id)
           else s.ctx_list new_file) ++ [id] := by
        rw [hS3]
        dsimp only
        rw [if_pos rfl]
      rw [this, if_neg (fun hh => hne hh.symm)]
    · rw [hcl2, ctx_list_move_events]
      have : S3.ctx_list c.file =
          if c.file = c.file then (s.ctx_list c.file).filter (fun x => x ≠ id)
          else s.ctx_list c.file := by
        rw [hS3]
        dsimp only
        rw [if_neg hne]
      rw [this, if_pos rfl]
  · intro ctx' ev cm
    rcases ev with ⟨k, st, mr⟩
    cases k <;> rfl

/-- Witness for C3: migrating the context (with a connect-request event and
a multicast event queued) from session 0 to session 3 moves both events to
session 3's queue tail; a self-migration to session 0 changes nothing. -/
theorem C3_witness :
    (ucma_migrate_id wState 3 true true true 0 1 true).1.event_list 3 =
      [wEvConn, wEvMc] ∧
    (ucma_migrate_id wState 3 true true true 0 1 true).1.event_list 0 = [] ∧
    (ucma_migrate_id wState 3 true true true 0 1 true).2.2 = some 4 ∧
    ucma_migrate_id wState 0 true true true 0 1 true = (wState, 0, some 4) := by
  have hd := (C3_migrate wState 3 0 1 wCtx (by decide) (by decide) (by decide)
    (by decide)).2.1 (by decide)
  have h3 : (ucma_migrate_id wState 3 true true true 0 1 true).1.event_list 3 =
      wState.event_list 3 ++ List.filter (fun e => e.ctx == 1) (wState.event_list 0) :=
    hd.2.2.1
  have h0 : (ucma_migrate_id wState 3 true true true 0 1 true).1.event_list 0 =
      List.filter (fun e => e.ctx != 1) (wState.event_list 0) :=
    hd.2.2.2.1
  have hr : (ucma_migrate_id wState 3 true true true 0 1 true).2.2 = some 4 := hd.2.1
  refine ⟨?_, ?_, hr,
    (C3_migrate wState 0 0 1 wCtx (by decide) (by decide) (by decide) (by decide)).1 (by decide)⟩
  · rw [h3]
    decide
  · rw [h0]
    decide

/-- Claim C2: popping a connect-request event allocates and registers a new
context, adopts the event's engine object into it, returns the backlog slot
to the parent listener, and substitutes the new context's id into the
delivered response; `events_reported` of the event's context (the parent
listener — and of the group for a group event) is incremented only after the
response copy succeeds: on copy failure nothing is consumed or counted (for
a connect-request the already-performed context creation and backlog return
remain, as the code performs them before the copy). -/
theorem C2_get_event_connreq (s : UState) (file : Nat) (uev : Event) (rest : List Event)
    (pc : Context)
    (hq : s.event_list file = uev :: rest)
    (hconn : uev.resp_event = EventKind.connectRequest)
    (hmc : uev.mc = none)
    (hp : findCtx s uev.ctx = some pc) :
    ((ucma_get_event s file true true false true true).2.1 = 0 ∧
     (ucma_get_event s file true true false true true).2.2 =
       some { uev with resp_id := freshCtxId s } ∧
     findCtx (ucma_get_event s file true true false true true).1 (freshCtxId s) =
       some { id := freshCtxId s, ref := 1, events_reported := 0, backlog := 0,
              file := file, cm_id := some uev.cm_id, uid := 0, closing := false,
              destroying := false, in_table := true, mc_list := [] } ∧
     (ucma_get_event s file true true false true true).1.ctx_list file =
       s.ctx_list file ++ [freshCtxId s] ∧
     findCtx (ucma_get_event s file true true false true true).1 uev.ctx =
       some { pc with backlog := pc.backlog + 1,
                      events_reported := pc.events_reported + 1 } ∧
     (ucma_get_event s file true true false true true).1.event_list file = rest) ∧
    ((ucma_get_event s file true true false true false).2.1 = -EFAULT ∧
     (ucma_get_event s file true true false true false).2.2 = none ∧
     (ucma_get_event s file true true false true false).1.event_list file =
       { uev with resp_id := freshCtxId s } :: rest ∧
     findCtx (ucma_get_event s file true true false true false).1 uev.ctx =
       some { pc with backlog := pc.backlog + 1 } ∧
     findCtx (ucma_get_event s file true true false true false).1 (freshCtxId s) =
       some { id := freshCtxId s, ref := 1, events_reported := 0, backlog := 0,
              file := file, cm_id := some uev.cm_id, uid := 0, closing := false,
              destroying := false, in_table := true, mc_list := [] }) ∧
    (∀ (s2 : UState) (uev2 : Event) (rest2 : List Event) (m : Nat) (mc2 : Multicast)
       (pc2 : Context),
      s2.event_list file = uev2 :: rest2 →
      uev2.resp_event ≠ EventKind.connectRequest →
      uev2.mc = some m →
      findMc s2 m = some mc2 →
      findCtx s2 uev2.ctx = some pc2 →
      ucma_get_event s2 file true true false true false = (s2, -EFAULT, none) ∧
      (ucma_get_event s2 file true true false true true).2.1 = 0 ∧
      (ucma_get_event s2 file true true false true true).2.2 = some uev2 ∧
      findCtx (ucma_get_event s2 file true true false true true).1 uev2.ctx =
        some { pc2 with events_reported := pc2.events_reported + 1 } ∧
      findMc (ucma_get_event s2 file true true false true true).1 m =
        some { mc2 with events_reported := mc2.events_reported + 1 } ∧
      (ucma_get_event s2 file true true false true true).1.event_list file = rest2) := by
  have hid_pc : pc.id = uev.ctx := findCtx_some_id hp
  have hmem : pc ∈ s.ctxs := List.mem_of_find?_eq_some hp
  have hne_fresh : uev.ctx ≠ freshCtxId s := by
    have := fresh_ctx_not_id s pc hmem
    rw [hid_pc] at this
    exact this
  set S3 : UState :=
    updateCtx (updateCtx (ucma_alloc_ctx s file).1 uev.ctx
      (fun c => { c with backlog := c.backlog + 1 })) (freshCtxId s)
      (fun c => { c with cm_id := some uev.cm_id }) with hS3
  have hS3fresh : findCtx S3 (freshCtxId s) =
      some { id := freshCtxId s, ref := 1, events_reported := 0, backlog := 0,
             file := file, cm_id := some uev.cm_id, uid := 0, closing := false,
             destroying := false, in_table := true, mc_list := [] } := by
    rw [hS3,
        findCtx_updateCtx _ (freshCtxId s) (freshCtxId s)
          (fun c => { c with cm_id := some uev.cm_id }) (fun c => rfl), if_pos rfl,
        findCtx_updateCtx _ uev.ctx (freshCtxId s)
          (fun c => { c with backlog := c.backlog + 1 }) (fun c => rfl),
        if_neg (fun hh => hne_fresh hh.symm),
        findCtx_alloc, if_pos rfl]
    rfl
  have hS3parent : findCtx S3 uev.ctx = some { pc with backlog := pc.backlog + 1 } := by
    rw [hS3,
        findCtx_updateCtx _ (freshCtxId s) uev.ctx
          (fun c => { c with cm_id := some uev.cm_id }) (fun c => rfl),
        if_neg hne_fresh,
        findCtx_updateCtx _ uev.ctx uev.ctx
          (fun c => { c with backlog := c.backlog + 1 }) (fun c => rfl),
        if_pos rfl, findCtx_alloc, if_neg hne_fresh, hp]
    rfl
  have hS3cl : S3.ctx_list file = s.ctx_list file ++ [freshCtxId s] := by
    rw [hS3]
    show ((ucma_alloc_ctx s file).1).ctx_list file = _
    rw [ctx_list_alloc]
    dsimp only
    rw [if_pos rfl]
  have hrunF : ucma_get_event s file true true false true false =
      ({ S3 with event_list := fun g =>
           if g = file then { uev with resp_id := freshCtxId s } :: rest
           else S3.event_list g },
       -EFAULT, none) := by
    unfold ucma_get_event
    rw [hq]
    try dsimp only
    rw [if_pos hconn]
    rfl
  have hrunT : ucma_get_event s file true true false true true =
      (updateCtx
        { S3 with event_list := fun g =>
            if g = file then rest
            else (if g = file then { uev with resp_id := freshCtxId s } :: rest
                  else S3.event_list g) }
        uev.ctx (fun c => { c with events_reported := c.events_reported + 1 }),
       0, some { uev with resp_id := freshCtxId s }) := by
    unfold ucma_get_event finishGetEvent
    rw [hq]
    try dsimp only
    rw [if_pos hconn]
    try dsimp only
    rw [hmc]
    try rfl
  refine ⟨⟨?_, ?_, ?_, ?_, ?_, ?_⟩, ⟨?_, ?_, ?_, ?_, ?_⟩, ?_⟩
  · rw [hrunT]
  · rw [hrunT]
  · rw [hrunT,
        findCtx_updateCtx _ uev.ctx (freshCtxId s)
          (fun c => { c with events_reported := c.events_reported + 1 }) (fun c => rfl),
        if_neg (fun hh => hne_fresh hh.symm), findCtx_set_queue, hS3fresh]
  · rw [hrunT, ctx_list_updateCtx, ctx_list_set_queue, hS3cl]
  · rw [hrunT,
        findCtx_updateCtx _ uev.ctx uev.ctx
          (fun c => { c with events_reported := c.events_reported + 1 }) (fun c => rfl),
        if_pos rfl, findCtx_set_queue, hS3parent]
    rfl
  · rw [hrunT, event_list_updateCtx, event_list_set_queue]
    try dsimp only
    rw [if_pos rfl]
  · rw [hrunF]
  · rw [hrunF]
  · rw [hrunF, event_list_set_queue]
    try dsimp only
    rw [if_pos rfl]
  · rw [hrunF, findCtx_set_queue, hS3parent]
  · rw [hrunF, findCtx_set_queue, hS3fresh]
  · intro s2 uev2 rest2 m mc2 pc2 hq2 hne2 hmc2 hfm2 hfc2
    have hrunB : ucma_get_event s2 file true true false true false = (s2, -EFAULT, none) := by
      unfold ucma_get_event
      rw [hq2]
      try dsimp only
      rw [if_neg hne2]
      rfl
    have hrunG : ucma_get_event s2 file true true false true true =
        (updateMc
          (updateCtx
            { s2 with event_list := fun g => if g = file then rest2 else s2.event_list g }
            uev2.ctx (fun c => { c with events_reported := c.events_reported + 1 }))
          m (fun mc => { mc with events_reported := mc.events_reported + 1 }),
         0, some uev2) := by
      unfold ucma_get_event finishGetEvent
      rw [hq2]
      try dsimp only
      rw [if_neg hne2]
      try dsimp only
      rw [hmc2]
      try rfl
    refine ⟨hrunB, ?_, ?_, ?_, ?_, ?_⟩
    · rw [hrunG]
    · rw [hrunG]
    · rw [hrunG, findCtx_updateMc,
          findCtx_updateCtx _ uev2.ctx uev2.ctx
            (fun c => { c with events_reported := c.events_reported + 1 }) (fun c => rfl),
          if_pos rfl, findCtx_set_queue, hfc2]
      rfl
    · rw [hrunG,
          findMc_updateMc _ m m
            (fun mc => { mc with events_reported := mc.events_reported + 1 }) (fun mc => rfl),
          if_pos rfl, findMc_updateCtx, findMc_set_queue, hfm2]
      rfl
    · rw [hrunG, event_list_updateMc, event_list_updateCtx, event_list_set_queue]
      try dsimp only
      rw [if_pos rfl]

/-- Witness for C2: reading the queued connect-request in `wState` creates
context 2 adopting engine object 11, restores the listener's backlog to 3,
delivers id 2, pops the event and bumps `events_reported` to 5; and for the
queued multicast event (in a state where it is at the head) a successful
read bumps the group's count while a failed copy leaves the state alone. -/
theorem C2_witness :
    (ucma_get_event wState 0 true true false true true).2.2 =
      some { wEvConn with resp_id := 2 } ∧
    findCtx (ucma_get_event wState 0 true true false true true).1 1 =
      some { wCtx with backlog := 3, events_reported := 5 } ∧
    findCtx (ucma_get_event wState 0 true true false true true).1 2 =
      some { id := 2, ref := 1, events_reported := 0, backlog := 0, file := 0,
             cm_id := some 11, uid := 0, closing := false, destroying := false,
             in_table := true, mc_list := [] } ∧
    (ucma_get_event wStateMcFirst 0 true true false true true).2.2 = some wEvMc ∧
    findMc (ucma_get_event wStateMcFirst 0 true true false true true).1 5 =
      some { wMc with events_reported := 4 } ∧
    ucma_get_event wStateMcFirst 0 true true false true false =
      (wStateMcFirst, -EFAULT, none) := by
  have hA := (C2_get_event_connreq wState 0 wEvConn [wEvMc] wCtx (by decide) rfl rfl
    (by decide)).1
  have hB := (C2_get_event_connreq wState 0 wEvConn [wEvMc] wCtx (by decide) rfl rfl
    (by decide)).2.2 wStateMcFirst wEvMc [] 5 wMc wCtx (by decide) (by decide) rfl
    (by decide) (by decide)
  exact ⟨hA.2.1, hA.2.2.2.2.1, hA.2.2.1, hB.2.2.1, hB.2.2.2.2.1, hB.1⟩

theorem xaLoadMc_some {s : UState} {id : Nat} {m : Multicast}
    (h : xaLoadMc s id = some m) : findMc s id = some m ∧ m.published = true := by
  unfold xaLoadMc at h
  cases hf : findMc s id with
  | none => rw [hf] at h; cases h
  | some m' =>
    rw [hf] at h
    by_cases hp : m'.published
    · simp [hp] at h; subst h; exact ⟨rfl, hp⟩
    · simp [hp] at h

theorem findCtx_set_mcs (s : UState) (X : List Multicast) (x : Nat) :
    findCtx { s with mcs := X } x = findCtx s x := rfl

theorem event_list_set_mcs (s : UState) (X : List Multicast) :
    ({ s with mcs := X } : UState).event_list = s.event_list := rfl

theorem find?_mcs_fresh_none (s : UState) :
    s.mcs.find? (fun m => m.id == freshMcId s) = none := by
  apply List.find?_eq_none.mpr
  intro m hm
  simpa using fresh_mc_not_id s m hm

theorem ctx_restore_ref (c : Context) :
    ({ c with ref := c.ref + 1 - 1 } : Context) = c := by
  cases c
  simp

/-- `ucma_cleanup_mc_events` filters exactly the group's events out of the
parent's session queue, touching nothing else. -/
theorem cleanup_mc_spec (s : UState) (mc : Multicast) (c : Context)
    (hc : findCtx s mc.ctx = some c) :
    (ucma_cleanup_mc_events s mc).event_list c.file =
      (s.event_list c.file).filter (fun e => e.mc ≠ some mc.id) ∧
    (∀ g, g ≠ c.file → (ucma_cleanup_mc_events s mc).event_list g = s.event_list g) ∧
    (ucma_cleanup_mc_events s mc).ctxs = s.ctxs ∧
    (ucma_cleanup_mc_events s mc).mcs = s.mcs ∧
    (ucma_cleanup_mc_events s mc).ctx_list = s.ctx_list := by
  unfold ucma_cleanup_mc_events
  rw [hc]
  refine ⟨?_, ?_, rfl, rfl, rfl⟩
  · try dsimp only
    rw [if_pos rfl]
  · intro g hg
    try dsimp only
    rw [if_neg hg]

theorem find?_mc_filter_ne_none (l : List Multicast) (k : Nat) :
    (l.filter (fun m => m.id ≠ k)).find? (fun m => m.id == k) = none := by
  apply List.find?_eq_none.mpr
  intro m hm
  have := (List.mem_filter.mp hm).2
  simp at this ⊢
  exact this

/-- Claim C9: a leave-multicast whose validated lookup succeeds removes
exactly the queued events targeting that group from the parent's session
queue (other groups' and contexts' events untouched), erases and frees the
group, restores the parent's refcount (net zero: incremented with the erase,
released after), unlinks the group from the parent's group list, and
returns the group's accumulated `events_reported` to the client. -/
theorem C9_leave_multicast (s : UState) (file id : Nat) (mc : Multicast) (pc : Context)
    (hm : xaLoadMc s id = some mc) (hpc : findCtx s mc.ctx = some pc)
    (hfile : pc.file = file) (href : pc.ref ≠ 0) :
    (ucma_leave_multicast s file true true id true).2.1 = 0 ∧
    (ucma_leave_multicast s file true true id true).2.2 = some mc.events_reported ∧
    (ucma_leave_multicast s file true true id true).1.event_list pc.file =
      (s.event_list pc.file).filter (fun e => e.mc ≠ some id) ∧
    (∀ g, g ≠ pc.file →
      (ucma_leave_multicast s file true true id true).1.event_list g = s.event_list g) ∧
    findMc (ucma_leave_multicast s file true true id true).1 id = none ∧
    findCtx (ucma_leave_multicast s file true true id true).1 mc.ctx =
      some { pc with mc_list := pc.mc_list.filter (fun x => x ≠ id) } := by
  have hmid : mc.id = id := findMc_some_id (xaLoadMc_some hm).1
  have hpcid : pc.id = mc.ctx := findCtx_some_id hpc
  set S2 : UState :=
    updateMc (updateCtx s mc.ctx (fun c => { c with ref := c.ref + 1 })) mc.id
      (fun m => { m with published := false }) with hS2
  have hS2ctx : findCtx S2 mc.ctx = some { pc with ref := pc.ref + 1 } := by
    rw [hS2, findCtx_updateMc,
        findCtx_updateCtx _ mc.ctx mc.ctx (fun c => { c with ref := c.ref + 1 })
          (fun c => rfl), if_pos rfl, hpc]
    rfl
  have hclean := cleanup_mc_spec S2 mc { pc with ref := pc.ref + 1 } hS2ctx
  have hrun : ucma_leave_multicast s file true true id true =
      ({ ucma_put_ctx
           (updateCtx (ucma_cleanup_mc_events S2 mc) mc.ctx
             (fun c => { c with mc_list := c.mc_list.filter (fun x => x ≠ mc.id) }))
           mc.ctx with
         mcs := (ucma_put_ctx
           (updateCtx (ucma_cleanup_mc_events S2 mc) mc.ctx
             (fun c => { c with mc_list := c.mc_list.filter (fun x => x ≠ mc.id) }))
           mc.ctx).mcs.filter (fun m => m.id ≠ mc.id) },
       0, some mc.events_reported) := by
    unfold ucma_leave_multicast
    rw [hm]
    try dsimp only
    rw [hpc]
    try dsimp only
    rw [if_neg (show ¬ (pc.file ≠ file) from fun hh => hh hfile),
        if_neg (show ¬ (pc.ref = 0) from href)]
    rfl
  have hmcs_res :
      ({ ucma_put_ctx
           (updateCtx (ucma_cleanup_mc_events S2 mc) mc.ctx
             (fun c => { c with mc_list := c.mc_list.filter (fun x => x ≠ mc.id) }))
           mc.ctx with
         mcs := (ucma_put_ctx
           (updateCtx (ucma_cleanup_mc_events S2 mc) mc.ctx
             (fun c => { c with mc_list := c.mc_list.filter (fun x => x ≠ mc.id) }))
           mc.ctx).mcs.filter (fun m => m.id ≠ mc.id) } : UState).mcs =
      S2.mcs.filter (fun m => m.id ≠ mc.id) := by
    show ((ucma_cleanup_mc_events S2 mc).mcs.filter (fun m => m.id ≠ mc.id)) = _
    rw [hclean.2.2.2.1]
  refine ⟨by rw [hrun], by rw [hrun], ?_, ?_, ?_, ?_⟩
  · rw [hrun]
    show (ucma_cleanup_mc_events S2 mc).event_list pc.file = _
    have := hclean.1
    rw [show ({ pc with ref := pc.ref + 1 } : Context).file = pc.file from rfl] at this
    rw [this, hmid]
    rfl
  · intro g hg
    rw [hrun]
    show (ucma_cleanup_mc_events S2 mc).event_list g = _
    exact hclean.2.1 g (by simpa using hg)
  · rw [hrun]
    unfold findMc
    rw [show ({ ucma_put_ctx
        (updateCtx (ucma_cleanup_mc_events S2 mc) mc.ctx
          (fun c => { c with mc_list := c.mc_list.filter (fun x => x ≠ mc.id) }))
        mc.ctx with
      mcs := (ucma_put_ctx
        (updateCtx (ucma_cleanup_mc_events S2 mc) mc.ctx
          (fun c => { c with mc_list := c.mc_list.filter (fun x => x ≠ mc.id) }))
        mc.ctx).mcs.filter (fun m => m.id ≠ mc.id) } : UState).mcs =
      S2.mcs.filter (fun m => m.id ≠ mc.id) from hmcs_res]
    rw [hmid]
    exact find?_mc_filter_ne_none _ id
  · rw [hrun]
    show findCtx (ucma_put_ctx
        (updateCtx (ucma_cleanup_mc_events S2 mc) mc.ctx
          (fun c => { c with mc_list := c.mc_list.filter (fun x => x ≠ mc.id) }))
        mc.ctx) mc.ctx = _
    unfold ucma_put_ctx
    rw [findCtx_updateCtx _ mc.ctx mc.ctx (fun c => { c with ref := c.ref - 1 })
          (fun c => rfl), if_pos rfl,
        findCtx_updateCtx _ mc.ctx mc.ctx
          (fun c => { c with mc_list := c.mc_list.filter (fun x => x ≠ mc.id) })
          (fun c => rfl), if_pos rfl]
    have : findCtx (ucma_cleanup_mc_events S2 mc) mc.ctx =
        some { pc with ref := pc.ref + 1 } := by
      unfold findCtx
      rw [hclean.2.2.1]
      exact hS2ctx
    rw [this, hmid]
    simp

/-- Witness for C9: leaving group 5 in `wState` removes exactly the queued
multicast event, erases the group, returns its count 3, and leaves the
parent with an empty group list and its original refcount. -/
theorem C9_witness :
    (ucma_leave_multicast wState 0 true true 5 true).2.2 = some 3 ∧
    (ucma_leave_multicast wState 0 true true 5 true).1.event_list 0 = [wEvConn] ∧
    findMc (ucma_leave_multicast wState 0 true true 5 true).1 5 = none ∧
    findCtx (ucma_leave_multicast wState 0 true true 5 true).1 1 =
      some { wCtx with mc_list := [] } := by
  have h := C9_leave_multicast wState 0 5 wMc wCtx (by decide) (by decide) (by decide)
    (by decide)
  have he : (ucma_leave_multicast wState 0 true true 5 true).1.event_list 0 =
      List.filter (fun e => e.mc ≠ some 5) (wState.event_list 0) := h.2.2.1
  refine ⟨h.2.1, ?_, h.2.2.2.2.1, ?_⟩
  · rw [he]
    decide
  · have := h.2.2.2.2.2
    rw [show List.filter (fun x => x ≠ 5) wCtx.mc_list = ([] : List Nat) from by decide]
      at this
    exact this

/-- `ucma_get_event` popping a connect-request when only the response copy
fails: the error is returned, the (id-substituted) event stays queued, and
the freshly created context remains registered with the parent's backlog
already incremented — nothing is unwound. -/
theorem get_event_copyfail_spec (s : UState) (file : Nat) (uev : Event)
    (rest : List Event) (pc : Context)
    (hq : s.event_list file = uev :: rest)
    (hconn : uev.resp_event = EventKind.connectRequest)
    (hp : findCtx s uev.ctx = some pc) :
    (ucma_get_event s file true true false true false).2.1 = -EFAULT ∧
    (ucma_get_event s file true true false true false).1.event_list file =
      { uev with resp_id := freshCtxId s } :: rest ∧
    findCtx (ucma_get_event s file true true false true false).1 (freshCtxId s) =
      some { id := freshCtxId s, ref := 1, events_reported := 0, backlog := 0,
             file := file, cm_id := some uev.cm_id, uid := 0, closing := false,
             destroying := false, in_table := true, mc_list := [] } ∧
    findCtx (ucma_get_event s file true true false true false).1 uev.ctx =
      some { pc with backlog := pc.backlog + 1 } := by
  have hmem : pc ∈ s.ctxs := List.mem_of_find?_eq_some hp
  have hne_fresh : uev.ctx ≠ freshCtxId s := by
    have h1 := fresh_ctx_not_id s pc hmem
    rw [findCtx_some_id hp] at h1
    exact h1
  set S3 : UState :=
    updateCtx (updateCtx (ucma_alloc_ctx s file).1 uev.ctx
      (fun c => { c with backlog := c.backlog + 1 })) (freshCtxId s)
      (fun c => { c with cm_id := some uev.cm_id }) with hS3
  have hS3fresh : findCtx S3 (freshCtxId s) =
      some { id := freshCtxId s, ref := 1, events_reported := 0, backlog := 0,
             file := file, cm_id := some uev.cm_id, uid := 0, closing := false,
             destroying := false, in_table := true, mc_list := [] } := by
    rw [hS3,
        findCtx_updateCtx _ (freshCtxId s) (freshCtxId s)
          (fun c => { c with cm_id := some uev.cm_id }) (fun c => rfl), if_pos rfl,
        findCtx_updateCtx _ uev.ctx (freshCtxId s)
          (fun c => { c with backlog := c.backlog + 1 }) (fun c => rfl),
        if_neg (fun hh => hne_fresh hh.symm),
        findCtx_alloc, if_pos rfl]
    rfl
  have hS3parent : findCtx S3 uev.ctx = some { pc with backlog := pc.backlog + 1 } := by
    rw [hS3,
        findCtx_updateCtx _ (freshCtxId s) uev.ctx
          (fun c => { c with cm_id := some uev.cm_id }) (fun c => rfl),
        if_neg hne_fresh,
        findCtx_updateCtx _ uev.ctx uev.ctx
          (fun c => { c with backlog := c.backlog + 1 }) (fun c => rfl),
        if_pos rfl, findCtx_alloc, if_neg hne_fresh, hp]
    rfl
  have hrunF : ucma_get_event s file true true false true false =
      ({ S3 with event_list := fun g =>
           if g = file then { uev with resp_id := freshCtxId s } :: rest
           else S3.event_list g },
       -EFAULT, none) := by
    unfold ucma_get_event
    rw [hq]
    try dsimp only
    rw [if_pos hconn]
    rfl
  refine ⟨by rw [hrunF], ?_, ?_, ?_⟩
  · rw [hrunF, event_list_set_queue]
    try dsimp only
    rw [if_pos rfl]
  · rw [hrunF, findCtx_set_queue, hS3fresh]
  · rw [hrunF, findCtx_set_queue, hS3parent]

/-- `ucma_process_join` when only the final id-response copy fails: -EFAULT
is returned and the join is unwound entirely — the group's events are
dropped from the queue, the group is erased and freed, the parent's group
list and refcount are restored. -/
theorem process_join_copyfail_spec (s : UState) (file uid id addr cm : Nat) (c : Context)
    (h : xaLoadCtx s id = some c) (hf : c.file = file) (hcm : c.cm_id = some cm)
    (hcl : c.closing = false) (hmfresh : freshMcId s ∉ c.mc_list) :
    (ucma_process_join (fun _ => true) s file true true RDMA_MC_JOIN_FLAG_FULLMEMBER uid id
      addr true 0 false).2 = -EFAULT ∧
    (ucma_process_join (fun _ => true) s file true true RDMA_MC_JOIN_FLAG_FULLMEMBER uid id
      addr true 0 false).1.mcs = s.mcs ∧
    findCtx (ucma_process_join (fun _ => true) s file true true
      RDMA_MC_JOIN_FLAG_FULLMEMBER uid id addr true 0 false).1 id = some c ∧
    (ucma_process_join (fun _ => true) s file true true RDMA_MC_JOIN_FLAG_FULLMEMBER uid id
      addr true 0 false).1.event_list c.file =
      (s.event_list c.file).filter (fun e => e.mc ≠ some (freshMcId s)) ∧
    (∀ g, g ≠ c.file → (ucma_process_join (fun _ => true) s file true true
      RDMA_MC_JOIN_FLAG_FULLMEMBER uid id addr true 0 false).1.event_list g =
      s.event_list g) ∧
    findMc (ucma_process_join (fun _ => true) s file true true
      RDMA_MC_JOIN_FLAG_FULLMEMBER uid id addr true 0 false).1 (freshMcId s) = none := by
  have hcf : findCtx s id = some c := (xaLoadCtx_some h).1
  have hcid : c.id = id := findCtx_some_id hcf
  subst hcid
  have hget := get_ctx_ok h hf (by simp [hcm]) hcl
  have hfu : findCtx (updateCtx s c.id (fun x => { x with ref := x.ref + 1 })) c.id =
      some { c with ref := c.ref + 1 } := by
    rw [findCtx_updateCtx s c.id c.id (fun x => { x with ref := x.ref + 1 }) (fun x => rfl),
        if_pos rfl, hcf]
    rfl
  have hgetdev : ucma_get_ctx_dev (fun _ => true) s file c.id =
      (updateCtx s c.id (fun x => { x with ref := x.ref + 1 }), Except.ok c.id) := by
    unfold ucma_get_ctx_dev
    rw [hget]
    try dsimp only
    rw [hfu]
    try dsimp only
    rw [hcm]
    rfl
  set S2 : UState :=
    updateMc
      (updateCtx
        { updateCtx s c.id (fun x => { x with ref := x.ref + 1 }) with
          mcs := (updateCtx s c.id (fun x => { x with ref := x.ref + 1 })).mcs ++
            [{ ctx := c.id, id := freshMcId s, events_reported := 0, uid := 0,
               join_state := 0, addr := 0, published := false }] }
        c.id (fun cc => { cc with mc_list := cc.mc_list ++ [freshMcId s] }))
      (freshMcId s)
      (fun m => { m with join_state := BIT_FULLMEMBER_JOIN, uid := uid, addr := addr })
    with hS2
  have hfmS2 : findMc S2 (freshMcId s) =
      some { ctx := c.id, id := freshMcId s, events_reported := 0, uid := uid,
             join_state := BIT_FULLMEMBER_JOIN, addr := addr, published := false } := by
    rw [hS2,
        findMc_updateMc _ (freshMcId s) (freshMcId s)
          (fun m => { m with join_state := BIT_FULLMEMBER_JOIN, uid := uid, addr := addr })
          (fun m => rfl), if_pos rfl, findMc_updateCtx]
    have hbase :
        ((s.mcs ++
          [({ ctx := c.id, id := freshMcId s, events_reported := 0, uid := 0,
              join_state := 0, addr := 0,
              published := false } : Multicast)]).find?
          (fun (m : Multicast) => m.id == freshMcId s)) =
        some { ctx := c.id, id := freshMcId s, events_reported := 0, uid := 0,
               join_state := 0, addr := 0, published := false } := by
      rw [find?_append_right _ _ _ (find?_mcs_fresh_none s)]
      simp
    rw [show findMc
        { updateCtx s c.id (fun x => { x with ref := x.ref + 1 }) with
          mcs := (updateCtx s c.id (fun x => { x with ref := x.ref + 1 })).mcs ++
            [{ ctx := c.id, id := freshMcId s, events_reported := 0, uid := 0,
               join_state := 0, addr := 0, published := false }] }
        (freshMcId s) =
        some { ctx := c.id, id := freshMcId s, events_reported := 0, uid := 0,
               join_state := 0, addr := 0, published := false } from hbase]
    rfl
  have hfcS2 : findCtx S2 c.id =
      some { c with ref := c.ref + 1, mc_list := c.mc_list ++ [freshMcId s] } := by
    rw [hS2, findCtx_updateMc,
        findCtx_updateCtx _ c.id c.id
          (fun cc => { cc with mc_list := cc.mc_list ++ [freshMcId s] }) (fun cc => rfl),
        if_pos rfl, findCtx_set_mcs,
        findCtx_updateCtx _ c.id c.id (fun x => { x with ref := x.ref + 1 }) (fun x => rfl),
        if_pos rfl, hcf]
    rfl
  have hcleanj := cleanup_mc_spec S2
    { ctx := c.id, id := freshMcId s, events_reported := 0, uid := uid,
      join_state := BIT_FULLMEMBER_JOIN, addr := addr, published := false }
    { c with ref := c.ref + 1, mc_list := c.mc_list ++ [freshMcId s] } hfcS2
  have hrunJ0 : ucma_process_join (fun _ => true) s file true true
      RDMA_MC_JOIN_FLAG_FULLMEMBER uid c.id addr true 0 false =
      (ucma_put_ctx
        (mcUnwind
          (match findMc S2 (freshMcId s) with
           | some mcx => ucma_cleanup_mc_events S2 mcx
           | none => S2)
          c.id (freshMcId s))
        c.id,
       -EFAULT) := by
    unfold ucma_process_join
    rw [hgetdev]
    try dsimp only
    rw [hfu]
    try dsimp only
    rfl
  have hrunJ : ucma_process_join (fun _ => true) s file true true
      RDMA_MC_JOIN_FLAG_FULLMEMBER uid c.id addr true 0 false =
      (ucma_put_ctx
        (mcUnwind
          (ucma_cleanup_mc_events S2
            { ctx := c.id, id := freshMcId s, events_reported := 0, uid := uid,
              join_state := BIT_FULLMEMBER_JOIN, addr := addr, published := false })
          c.id (freshMcId s))
        c.id,
       -EFAULT) := by
    rw [hrunJ0, hfmS2]
  have hS2mcs : S2.mcs = s.mcs ++
      [{ ctx := c.id, id := freshMcId s, events_reported := 0, uid := uid,
         join_state := BIT_FULLMEMBER_JOIN, addr := addr, published := false }] := by
    rw [hS2]
    show (((s.mcs ++
        [({ ctx := c.id, id := freshMcId s, events_reported := 0, uid := 0,
            join_state := 0, addr := 0, published := false } : Multicast)]).map
        fun (m : Multicast) =>
          if m.id = freshMcId s then
            { m with join_state := BIT_FULLMEMBER_JOIN, uid := uid, addr := addr }
          else m)) = _
    rw [List.map_append,
        map_update_of_not_mem Multicast.id s.mcs (freshMcId s) _ (fresh_mc_not_id s)]
    simp
  have hmcs_res : (ucma_process_join (fun _ => true) s file true true
      RDMA_MC_JOIN_FLAG_FULLMEMBER uid c.id addr true 0 false).1.mcs = s.mcs := by
    rw [hrunJ]
    show ((ucma_cleanup_mc_events S2
      { ctx := c.id, id := freshMcId s, events_reported := 0, uid := uid,
        join_state := BIT_FULLMEMBER_JOIN, addr := addr,
        published := false }).mcs.filter (fun m => m.id ≠ freshMcId s)) = s.mcs
    rw [hcleanj.2.2.2.1, hS2mcs, List.filter_append,
        filter_key_ne_of_not_mem Multicast.id s.mcs (freshMcId s) (fresh_mc_not_id s)]
    simp
  refine ⟨by rw [hrunJ], hmcs_res, ?_, ?_, ?_, ?_⟩
  · rw [hrunJ]
    unfold ucma_put_ctx mcUnwind
    rw [findCtx_updateCtx _ c.id c.id (fun x => { x with ref := x.ref - 1 }) (fun x => rfl),
        if_pos rfl,
        findCtx_updateCtx _ c.id c.id
          (fun x => { x with mc_list := x.mc_list.filter (fun y => y ≠ freshMcId s) })
          (fun x => rfl),
        if_pos rfl, findCtx_set_mcs]
    have hfc3 : findCtx (ucma_cleanup_mc_events S2
        { ctx := c.id, id := freshMcId s, events_reported := 0, uid := uid,
          join_state := BIT_FULLMEMBER_JOIN, addr := addr, published := false }) c.id =
        some { c with ref := c.ref + 1, mc_list := c.mc_list ++ [freshMcId s] } := by
      unfold findCtx
      rw [hcleanj.2.2.1]
      exact hfcS2
    rw [hfc3]
    have hflt : (c.mc_list ++ [freshMcId s]).filter (fun y => y ≠ freshMcId s) =
        c.mc_list := by
      rw [List.filter_append, filter_nat_ne_of_not_mem _ _ hmfresh]
      simp
    show some ({ c with
                 ref := c.ref + 1 - 1,
                 mc_list := ((c.mc_list ++ [freshMcId s]).filter
                   (fun y => y ≠ freshMcId s)) } : Context) = some c
    rw [hflt]
    exact congrArg some (ctx_restore_ref c)
  · rw [hrunJ]
    show (ucma_cleanup_mc_events S2
      { ctx := c.id, id := freshMcId s, events_reported := 0, uid := uid,
        join_state := BIT_FULLMEMBER_JOIN, addr := addr,
        published := false }).event_list c.file = _
    have h1 := hcleanj.1
    rw [show ({ c with
                ref := c.ref + 1,
                mc_list := c.mc_list ++ [freshMcId s] } : Context).file = c.file
        from rfl] at h1
    rw [h1]
    rfl
  · intro g hg
    rw [hrunJ]
    show (ucma_cleanup_mc_events S2
      { ctx := c.id, id := freshMcId s, events_reported := 0, uid := uid,
        join_state := BIT_FULLMEMBER_JOIN, addr := addr,
        published := false }).event_list g = _
    exact hcleanj.2.1 g (by simpa using hg)
  · unfold findMc
    rw [hmcs_res]
    exact find?_mcs_fresh_none s

/-- Claim C4 counterexample: popping the queued connect-request with a
failing response copy returns -EFAULT yet leaves a brand-new context (id 2)
registered — context 2 did not exist before the call, so the command's
created state is not unwound and a dangling registration remains. -/
theorem C4_cex :
    (ucma_get_event wState 0 true true false true false).2.1 = -EFAULT ∧
    findCtx wState 2 = none ∧
    findCtx (ucma_get_event wState 0 true true false true false).1 2 =
      some { id := 2, ref := 1, events_reported := 0, backlog := 0, file := 0,
             cm_id := some 11, uid := 0, closing := false, destroying := false,
             in_table := true, mc_list := [] } ∧
    (ucma_get_event wState 0 true true false true false).1.ctx_list 0 = [1, 2] := by
  decide

/-- Claim C4 (amended): a command that fails only at the final response copy
returns an error, and the state-creating commands unwind fully — a failed
multicast-join copy leaves the engine group, discards the group's queued
events, erases and frees the group and restores the parent; a failed
create-context copy erases, unlinks and frees the context and destroys the
engine object — but get-event is the exception: its failed copy leaves the
event queued (with the substituted id) and no eventsReported counter is
incremented, yet the context newly created for an incoming connection stays
registered and the parent's backlog stays incremented. -/
theorem C4_copyfail_unwind :
    (∀ (s : UState) (file uid id addr cm : Nat) (c : Context),
      xaLoadCtx s id = some c → c.file = file → c.cm_id = some cm → c.closing = false →
      freshMcId s ∉ c.mc_list →
      (ucma_process_join (fun _ => true) s file true true RDMA_MC_JOIN_FLAG_FULLMEMBER
        uid id addr true 0 false).2 = -EFAULT ∧
      (ucma_process_join (fun _ => true) s file true true RDMA_MC_JOIN_FLAG_FULLMEMBER
        uid id addr true 0 false).1.mcs = s.mcs ∧
      findCtx (ucma_process_join (fun _ => true) s file true true
        RDMA_MC_JOIN_FLAG_FULLMEMBER uid id addr true 0 false).1 id = some c ∧
      (ucma_process_join (fun _ => true) s file true true RDMA_MC_JOIN_FLAG_FULLMEMBER
        uid id addr true 0 false).1.event_list c.file =
        (s.event_list c.file).filter (fun e => e.mc ≠ some (freshMcId s)) ∧
      findMc (ucma_process_join (fun _ => true) s file true true
        RDMA_MC_JOIN_FLAG_FULLMEMBER uid id addr true 0 false).1 (freshMcId s) = none) ∧
    (∀ (s : UState) (file uid cm : Nat), freshCtxId s ∉ s.ctx_list file →
      (ucma_create_id s file true true RDMA_PS_TCP 0 uid true (Except.ok cm) false).2 =
        -EFAULT ∧
      (ucma_create_id s file true true RDMA_PS_TCP 0 uid true
        (Except.ok cm) false).1.ctxs = s.ctxs ∧
      (ucma_create_id s file true true RDMA_PS_TCP 0 uid true
        (Except.ok cm) false).1.destroyed_cm_ids = s.destroyed_cm_ids ++ [cm]) ∧
    (∀ (s : UState) (file : Nat) (uev : Event) (rest : List Event) (pc : Context),
      s.event_list file = uev :: rest → uev.resp_event = EventKind.connectRequest →
      findCtx s uev.ctx = some pc →
      (ucma_get_event s file true true false true false).2.1 = -EFAULT ∧
      (ucma_get_event s file true true false true false).1.event_list file =
        { uev with resp_id := freshCtxId s } :: rest ∧
      findCtx (ucma_get_event s file true true false true false).1 uev.ctx =
        some { pc with backlog := pc.backlog + 1 } ∧
      findCtx (ucma_get_event s file true true false true false).1 (freshCtxId s) =
        some { id := freshCtxId s, ref := 1, events_reported := 0, backlog := 0,
               file := file, cm_id := some uev.cm_id, uid := 0, closing := false,
               destroying := false, in_table := true, mc_list := [] }) := by
  refine ⟨?_, ?_, ?_⟩
  · intro s file uid id addr cm c h hf hcm hcl hmfresh
    have hx := process_join_copyfail_spec s file uid id addr cm c h hf hcm hcl hmfresh
    exact ⟨hx.1, hx.2.1, hx.2.2.1, hx.2.2.2.1, hx.2.2.2.2.2⟩
  · intro s file uid cm hfresh
    have hx := create_id_copyfail_spec s file uid cm hfresh
    exact ⟨hx.1, hx.2.1, hx.2.2.2.2⟩
  · intro s file uev rest pc hq hconn hp
    have hx := get_event_copyfail_spec s file uev rest pc hq hconn hp
    exact ⟨hx.1, hx.2.1, hx.2.2.2, hx.2.2.1⟩

/-- Witness for C4: at the concrete state, a failed join copy restores the
group table and queue, a failed create copy restores the context heap and
records the engine-object destruction, and a failed get-event copy leaves
the new context (id 2) registered while the parent's counters show the
backlog returned but no event reported. -/
theorem C4_witness :
    (ucma_process_join (fun _ => true) wState 0 true true RDMA_MC_JOIN_FLAG_FULLMEMBER
      9 1 0 true 0 false).2 = -EFAULT ∧
    (ucma_process_join (fun _ => true) wState 0 true true RDMA_MC_JOIN_FLAG_FULLMEMBER
      9 1 0 true 0 false).1.mcs = wState.mcs ∧
    findMc (ucma_process_join (fun _ => true) wState 0 true true
      RDMA_MC_JOIN_FLAG_FULLMEMBER 9 1 0 true 0 false).1 6 = none ∧
    (ucma_create_id wState 0 true true RDMA_PS_TCP 0 7 true
      (Except.ok 42) false).1.ctxs = wState.ctxs ∧
    findCtx (ucma_get_event wState 0 true true false true false).1 1 =
      some { wCtx with backlog := 3 } := by
  have hj := (C4_copyfail_unwind).1 wState 0 9 1 0 10 wCtx (by decide) (by decide)
    (by decide) (by decide) (by decide)
  have hc := (C4_copyfail_unwind).2.1 wState 0 7 42 (by decide)
  have hg := (C4_copyfail_unwind).2.2 wState 0 wEvConn [wEvMc] wCtx (by decide) rfl
    (by decide)
  exact ⟨hj.1, hj.2.1, hj.2.2.2.2, hc.2.1, hg.2.2.1⟩

end Ucma
